import Mathlib

/-!
Shallow embedding of the spam-detection core of `findspam.py` (rule gating,
the evaluation engine `FindSpam.test_post`, link/domain extraction, the
similarity scorer, and the procedural detectors), together with theorems
settling the specification claims about it.

Conventions used throughout:
* Python strings are Lean `String`s; most work happens on `List Char`
  (`String.data`) so that every function is structurally recursive or
  fuel-based and therefore evaluable by the kernel.
* Python floats are modelled exactly: every ratio in the source is a
  quotient of small natural numbers compared against small decimal
  constants, and all comparisons in the source are far enough from the
  binary-rounding boundary that exact rational comparison agrees with the
  float comparison (each such modelling step is noted where it occurs).
  Ratios are represented as unreduced numerator/denominator pairs (`Frac`)
  compared by cross-multiplication.
* Third-party collaborators (the `regex` module, `difflib.SequenceMatcher`,
  the `tld` package, `urllib.parse.urlparse`, `phonenumbers`, DNS) are
  modelled: `difflib` is implemented faithfully; `tld`/`urlparse` are
  implemented against an explicit TLD table; complex compiled regular
  expressions that are pure configuration data are abstracted as explicit
  function parameters (`RegexOps`), with the facts used about them stated
  as hypotheses.
* Exceptions are modelled with `Except`: a Python function that can raise
  returns `Except ε α`, and an uncaught exception propagates as `.error`.
-/

/-! ## Generic string machinery (on `List Char`) -/

/-- Build a `String` back from its character list. -/
def strL (l : List Char) : String := ⟨l⟩

/-- Model of Python `str.lower()` (ASCII case folding; all inputs used in the
theorems below are ASCII). -/
def lowerS (s : String) : String := ⟨s.data.map Char.toLower⟩

/-- Model of Python slicing `s[0:n]`. -/
def takeS (n : Nat) (s : String) : String := ⟨s.data.take n⟩

/-- Model of Python `str.startswith`. -/
def strStartsWith (s p : String) : Bool := p.data.isPrefixOf s.data

/-- Model of Python `str.endswith`. -/
def strEndsWith (s p : String) : Bool := p.data.isSuffixOf s.data

/-- Split a character list at the first occurrence of `pat`, returning the
part before it and the part after it. -/
def breakOnL (pat : List Char) : List Char → Option (List Char × List Char)
  | [] => if pat.isEmpty then some ([], []) else none
  | c :: cs =>
    if pat.isPrefixOf (c :: cs) then some ([], (c :: cs).drop pat.length)
    else
      match breakOnL pat cs with
      | some (pre, post) => some (c :: pre, post)
      | none => none

/-- Model of Python `pat in s` (substring test). -/
def containsS (s pat : String) : Bool := (breakOnL pat.data s.data).isSome

/-- Replace every (non-overlapping, left-to-right) occurrence of `pat`,
fuel-based.  Callers only use non-empty patterns. -/
def replaceAllL (pat repl : List Char) : Nat → List Char → List Char
  | 0, l => l
  | fuel + 1, l =>
    if pat.isEmpty then l
    else
      match breakOnL pat l with
      | none => l
      | some (pre, post) => pre ++ repl ++ replaceAllL pat repl fuel post

/-- Model of Python `s.replace(pat, repl)` (all occurrences). -/
def replaceAllS (s pat repl : String) : String :=
  ⟨replaceAllL pat.data repl.data (s.data.length + 1) s.data⟩

/-- Model of Python `s.replace(pat, repl, 1)` (first occurrence only;
with an empty pattern Python prepends the replacement). -/
def replaceFirstS (s pat repl : String) : String :=
  if pat.data.isEmpty then ⟨repl.data ++ s.data⟩
  else
    match breakOnL pat.data s.data with
    | none => s
    | some (pre, post) => ⟨pre ++ repl.data ++ post⟩

/-- Split on a separator pattern, fuel-based; model of Python `str.split(sep)`
for a non-empty separator. -/
def splitOnL (sep : List Char) : Nat → List Char → List (List Char)
  | 0, l => [l]
  | fuel + 1, l =>
    match breakOnL sep l with
    | none => [l]
    | some (pre, post) => pre :: splitOnL sep fuel post

/-- Model of Python `s.split(sep)`. -/
def splitOnS (s sep : String) : List String :=
  (splitOnL sep.data (s.data.length + 1) s.data).map strL

/-- Split at every character satisfying `p`; model of `regex.split` with a
single-character class (keeps empty fragments, as `regex.split` does). -/
def splitPredL (p : Char → Bool) : List Char → List (List Char)
  | [] => [[]]
  | c :: cs =>
    let r := splitPredL p cs
    if p c then [] :: r
    else
      match r with
      | [] => [[c]]
      | h :: t => (c :: h) :: t

/-- Model of Python `sep.join(parts)`. -/
def intercalateL (sep : List Char) : List (List Char) → List Char
  | [] => []
  | [x] => x
  | x :: xs => x ++ sep ++ intercalateL sep xs

/-- Model of Python `sep.join(parts)` on `String`. -/
def intercalateS (sep : String) (l : List String) : String :=
  ⟨intercalateL sep.data (l.map String.data)⟩

/-- Drop trailing characters satisfying `p`. -/
def dropTrailingL (p : Char → Bool) (l : List Char) : List Char :=
  (l.reverse.dropWhile p).reverse

/-- Model of Python `str.strip()` (whitespace at both ends). -/
def trimS (s : String) : String :=
  ⟨dropTrailingL Char.isWhitespace (s.data.dropWhile Char.isWhitespace)⟩

/-- Model of Python `str.rstrip()`. -/
def trimRightS (s : String) : String := ⟨dropTrailingL Char.isWhitespace s.data⟩

/-- Deduplicate keeping first occurrences; used as the (order-determinized)
model of Python `set(...)` iteration. -/
def dedupFirstAux (seen : List String) : List String → List String
  | [] => []
  | x :: xs =>
    if seen.contains x then dedupFirstAux seen xs
    else x :: dedupFirstAux (x :: seen) xs

/-- Deduplicate a list of strings keeping first occurrences. -/
def dedupFirst (l : List String) : List String := dedupFirstAux [] l

/-- Boolean lexicographic comparison of character lists by code point;
model of Python string comparison. -/
def charListLe : List Char → List Char → Bool
  | [], _ => true
  | _ :: _, [] => false
  | a :: as, b :: bs =>
    if a.toNat < b.toNat then true
    else if b.toNat < a.toNat then false
    else charListLe as bs

/-- Model of Python `str <= str` (code-point lexicographic order). -/
def strLe (a b : String) : Bool := charListLe a.data b.data

/-- `strLe` as a relation, for use with `List.insertionSort`. -/
def strLeProp (a b : String) : Prop := strLe a b = true

instance : DecidableRel strLeProp := fun a b => instDecidableEqBool (strLe a b) true

theorem charListLe_total : ∀ a b : List Char, charListLe a b = true ∨ charListLe b a = true := by
  intro a
  induction a with
  | nil => intro b; left; rfl
  | cons x xs ih =>
    intro b
    cases b with
    | nil => right; rfl
    | cons y ys =>
      by_cases hxy : x.toNat < y.toNat
      · left; simp [charListLe, hxy]
      · by_cases hyx : y.toNat < x.toNat
        · right; simp [charListLe, hyx]
        · rcases ih ys with h | h
          · left; simp [charListLe, hxy, hyx, h]
          · right; simp [charListLe, hxy, hyx, h]

theorem charListLe_trans :
    ∀ a b c : List Char, charListLe a b = true → charListLe b c = true → charListLe a c = true := by
  intro a
  induction a with
  | nil => intro b c _ _; rfl
  | cons x xs ih =>
    intro b c hab hbc
    cases b with
    | nil => simp [charListLe] at hab
    | cons y ys =>
      cases c with
      | nil => simp [charListLe] at hbc
      | cons z zs =>
        simp only [charListLe] at hab hbc ⊢
        by_cases hxy : x.toNat < y.toNat <;> by_cases hyz : y.toNat < z.toNat <;>
          by_cases hyx : y.toNat < x.toNat <;> by_cases hzy : z.toNat < y.toNat <;>
            simp_all <;>
              first
                | (have hxz : x.toNat < z.toNat := by omega
                   simp [hxz])
                | (have hxz : x.toNat = z.toNat := by omega
                   simp [hxz]
                   exact ih ys zs hab hbc)

instance : IsTotal String strLeProp := ⟨fun a b => charListLe_total a.data b.data⟩

instance : IsTrans String strLeProp :=
  ⟨fun a b c hab hbc => charListLe_trans a.data b.data c.data hab hbc⟩

/-! ## Exact ratios

Python's float ratios are modelled as unreduced fractions compared by
cross-multiplication (exact rational semantics; see the header note about
rounding boundaries). -/

/-- An unreduced non-negative fraction `num / den`. -/
structure Frac where
  num : Nat
  den : Nat
deriving DecidableEq, Repr

/-- `x ≤ y` on fraction values, by cross-multiplication. -/
def Frac.le (x y : Frac) : Bool := x.num * y.den ≤ y.num * x.den

/-- `x < y` on fraction values, by cross-multiplication. -/
def Frac.lt (x y : Frac) : Bool := x.num * y.den < y.num * x.den

/-- Value equality of fractions, by cross-multiplication. -/
def Frac.eqv (x y : Frac) : Bool := x.num * y.den = y.num * x.den

/-- Model of Python `max(x, y)` (returns the first argument on ties). -/
def Frac.pymax (x y : Frac) : Frac := if Frac.lt x y then y else x

/-- Model of Python `max(t1, t2, t3, t4)`. -/
def Frac.pymax4 (t1 t2 t3 t4 : Frac) : Frac :=
  Frac.pymax (Frac.pymax (Frac.pymax t1 t2) t3) t4

/-! ## Model of `difflib.SequenceMatcher` (used by `similar_ratio`)

Faithful implementation of CPython's `difflib` matching algorithm for
character sequences with `isjunk=None` (so the junk set is empty) and
`autojunk=True` (popular elements are dropped from the index when the
second sequence has at least 200 elements). -/

/-- Lookup in an association list with default `0`; model of
`j2len.get(k, 0)`. -/
def alookup : List (Nat × Nat) → Nat → Nat
  | [], _ => 0
  | (k, v) :: rest, key => if k = key then v else alookup rest key

/-- All indices of `c` in `b`, ascending; model of the `b2j` table entry. -/
def occIdx (b : List Char) (c : Char) : List Nat :=
  (List.range b.length).filter (fun j => b.getD j default = c)

/-- The `b2j` index with difflib's autojunk rule applied: when
`len(b) >= 200`, elements occurring more than `len(b) // 100 + 1` times are
dropped from the index. -/
def b2jOf (b : List Char) (c : Char) : List Nat :=
  let idxs := occIdx b c
  if b.length ≥ 200 && idxs.length > b.length / 100 + 1 then [] else idxs

/-- The diagonal-run scan of `find_longest_match`: returns
`(besti, bestj, bestsize)` before the extension phases. -/
def flmScan (a : List Char) (b2j : Char → List Nat) (alo ahi blo bhi : Nat) :
    Nat × Nat × Nat :=
  let step := fun (acc : Nat × Nat × Nat × List (Nat × Nat)) (i : Nat) =>
    let (bi0, bj0, bs0, j2len) := acc
    let js := (b2j (a.getD i default)).filter (fun j => blo ≤ j && j < bhi)
    let inner := js.foldl
      (fun (st : Nat × Nat × Nat × List (Nat × Nat)) (j : Nat) =>
        let (bi, bj, bs, nj) := st
        let k := (if j = 0 then 0 else alookup j2len (j - 1)) + 1
        let nj := (j, k) :: nj
        if k > bs then (i + 1 - k, j + 1 - k, k, nj) else (bi, bj, bs, nj))
      (bi0, bj0, bs0, ([] : List (Nat × Nat)))
    inner
  let (bi, bj, bs, _) :=
    (List.range' alo (ahi - alo)).foldl step (alo, blo, 0, ([] : List (Nat × Nat)))
  (bi, bj, bs)

/-- The leftward extension loop of `find_longest_match` (the junk set is
empty, so the junk-avoidance test always passes). -/
def extLow (a b : List Char) (alo blo : Nat) : Nat → Nat × Nat × Nat → Nat × Nat × Nat
  | 0, st => st
  | fuel + 1, (bi, bj, bs) =>
    if alo < bi && blo < bj && decide (a.getD (bi - 1) default = b.getD (bj - 1) default) then
      extLow a b alo blo fuel (bi - 1, bj - 1, bs + 1)
    else (bi, bj, bs)

/-- The rightward extension loop of `find_longest_match`. -/
def extHigh (a b : List Char) (ahi bhi : Nat) : Nat → Nat × Nat × Nat → Nat × Nat × Nat
  | 0, st => st
  | fuel + 1, (bi, bj, bs) =>
    if bi + bs < ahi && bj + bs < bhi && decide (a.getD (bi + bs) default = b.getD (bj + bs) default) then
      extHigh a b ahi bhi fuel (bi, bj, bs + 1)
    else (bi, bj, bs)

/-- `find_longest_match` over `a[alo:ahi]` and `b[blo:bhi]`. -/
def flm (a b : List Char) (b2j : Char → List Nat) (alo ahi blo bhi : Nat) :
    Nat × Nat × Nat :=
  extHigh a b ahi bhi ahi (extLow a b alo blo (flmScan a b2j alo ahi blo bhi).1
    (flmScan a b2j alo ahi blo bhi))

/-- Total size of all matching blocks (the recursive decomposition of
`get_matching_blocks`); only this sum is needed for `ratio()`.  Fuel-based;
`(ahi - alo) + (bhi - blo) + 1` fuel always suffices. -/
def msum (a b : List Char) (b2j : Char → List Nat) : Nat → Nat → Nat → Nat → Nat → Nat
  | 0, _, _, _, _ => 0
  | fuel + 1, alo, ahi, blo, bhi =>
    let (i, j, k) := flm a b b2j alo ahi blo bhi
    if k = 0 then 0
    else msum a b b2j fuel alo i blo j + k + msum a b b2j fuel (i + k) ahi (j + k) bhi

/-- `SequenceMatcher(None, a, b).ratio()` as an exact fraction:
`2 * M / (len(a) + len(b))`, and `1` when both are empty
(difflib's `_calculate_ratio`). -/
def smRatioOf (a b : List Char) : Frac :=
  let M := msum a b (b2jOf b) (a.length + b.length + 1) 0 a.length 0 b.length
  if a.length + b.length = 0 then ⟨1, 1⟩ else ⟨2 * M, a.length + b.length⟩

/-- `similar_ratio(a, b)`: case-insensitive difflib ratio
(`SequenceMatcher(None, a.lower(), b.lower()).ratio()`). -/
def similar_ratio (a b : String) : Frac :=
  smRatioOf (lowerS a).data (lowerS b).data

/-- `SIMILAR_THRESHOLD = 0.95`. -/
def SIMILAR_THRESHOLD : Frac := ⟨19, 20⟩

/-- `CHARACTER_USE_RATIO = 0.42`. -/
def CHARACTER_USE_RATIO : Frac := ⟨21, 50⟩

/-! ## Link extraction (`URL_REGEX`, `post_links`) -/

/-- `COMMON_MALFORMED_PROTOCOLS`. -/
def COMMON_MALFORMED_PROTOCOLS : List (String × String) := [("httl://", "http://")]

/-- A character allowed in the host part of a URL.  Model of the host
alternation of `URL_REGEX` restricted to ASCII (the pattern also admits
`\u00A1`-`\uFFFF` letters; no input considered here uses them). -/
def isHostChar (c : Char) : Bool := c.isLower || c.isDigit || c = '.' || c = '-'

/-- A lower-case letter or digit (the characters a host label may start and
end with). -/
def isLD (c : Char) : Bool := c.isLower || c.isDigit

/-- Validity of one host label as the name part
`(?:[a-z0-9]-?)*[a-z0-9]+` of `URL_REGEX`: non-empty, starts and ends with
a letter or digit, no two consecutive hyphens. -/
def nameOk (lb : List Char) : Bool :=
  !lb.isEmpty && isLD (lb.headD default) && isLD (lb.getLast?.getD default) &&
    !(breakOnL ['-', '-'] lb).isSome

/-- Length of the maximal prefix of the label list in which every label is
a valid name (the greedy `name(\.name)*` part). -/
def nameLabelCount : List (List Char) → Nat
  | [] => 0
  | lb :: rest => if nameOk lb then nameLabelCount rest + 1 else 0

/-- The maximal alphabetic prefix of a label (the greedy `[a-z]{2,}`
top-level-domain part, which may stop inside a label). -/
def alphaPrefixL (lb : List Char) : List Char := lb.takeWhile Char.isLower

/-- Backtracking over the split between `(\.name)*` and `\.tld`: the
greatest `j ≥ 1` not exceeding the start value such that label `j`
(0-based) begins with at least two letters. -/
def tldFind (labels : List (List Char)) : Nat → Option Nat
  | 0 => none
  | j + 1 =>
    if (alphaPrefixL (labels.getD (j + 1) [])).length ≥ 2 then some (j + 1)
    else tldFind labels j

/-- Try to match `URL_REGEX` at the head of `l`.  The pattern's single
capture group — and, outside the optional port and path, the whole match —
is just the host: the `scheme://` prefix is only part of the (unmodelled)
IPv4-literal branch, so bare domain names match with no scheme (the source
comments that this is deliberate, to catch unlinked spam domains).
Returns the captured host and the total length the full match consumes
(host plus optional `:port` of 2–5 digits plus optional `/`-path of
non-whitespace).  Model notes: the userinfo and IPv4-literal branches of
the pattern are not modelled (they require an explicit scheme, which no
input considered here combines with them). -/
def tryUrl (l : List Char) : Option (List Char × Nat) :=
  let run := l.takeWhile isHostChar
  let labels := splitOnL ['.'] (run.length + 1) run
  let m := nameLabelCount labels
  match tldFind labels (Nat.min m (labels.length - 1)) with
  | none => none
  | some j =>
    let tld := alphaPrefixL (labels.getD j [])
    let host := intercalateL ['.'] (labels.take j) ++ '.' :: tld
    let afterHost := l.drop host.length
    let portLen : Nat :=
      match afterHost with
      | ':' :: t =>
        let ds := t.takeWhile Char.isDigit
        if 2 ≤ ds.length then 1 + Nat.min ds.length 5 else 0
      | _ => 0
    let afterPort := afterHost.drop portLen
    let pathLen : Nat :=
      match afterPort with
      | '/' :: t => 1 + (t.takeWhile (fun c => !c.isWhitespace)).length
      | _ => 0
    some (host, host.length + portLen + pathLen)

/-- Scan `l` left to right for non-overlapping `URL_REGEX` matches.  Returns
the list of captured groups and the text with the full matches removed (the
latter models `regex.sub(URL_REGEX, "", ...)`). -/
def urlScan : Nat → List Char → List (List Char) × List Char
  | 0, l => ([], l)
  | _ + 1, [] => ([], [])
  | fuel + 1, c :: cs =>
    match tryUrl (c :: cs) with
    | some (grp, consumed) =>
      let (ms, kept) := urlScan fuel ((c :: cs).drop consumed)
      (grp :: ms, kept)
    | none =>
      let (ms, kept) := urlScan fuel cs
      (ms, c :: kept)

/-- `regex.findall(URL_REGEX, post)` (list of group-1 captures). -/
def urlFindall (s : String) : List String :=
  ((urlScan (s.data.length + 1) s.data).1).map strL

/-- `regex.sub(URL_REGEX, "", s)`. -/
def urlSub (s : String) : String := ⟨(urlScan (s.data.length + 1) s.data).2⟩

/-- `post_links(post)`: fix known malformed protocols, find all URLs, trim a
single trailing non-alphanumeric character per match, and return the set of
distinct matches (the Python `set` is modelled as first-occurrence
deduplication; no claim below depends on the set's iteration order beyond
what is stated there). -/
def post_links (post : String) : List String :=
  let post := COMMON_MALFORMED_PROTOCOLS.foldl
    (fun p pr => replaceAllS p pr.1 pr.2) post
  let links := (urlFindall post).map (fun l =>
    if (l.data.getLast?.getD default).isAlphanum then l else ⟨l.data.dropLast⟩)
  dedupFirst links

/-! ## Model of the `tld` package and `urllib.parse.urlparse` -/

/-- Errors raised by the modelled `tld.get_tld`:
`TldDomainNotFound` (carrying the reported domain name; the source recovers
it from the exception message via `EXCEPTION_RE`, modelled here as direct
retrieval) and `TldBadUrl` (raised for a URL without a hostname; the source
never catches this one). -/
inductive TldError where
  | domainNotFound (domain : String)
  | badUrl
deriving DecidableEq, Repr

/-- Result of the modelled `tld.get_tld(..., as_object=True)`: `domain` is
the label before the matched suffix and `fld` the domain together with the
suffix (`str(result)` in the library used by the source). -/
structure TldResult where
  domain : String
  fld : String
deriving DecidableEq, Repr

/-- Modelled table of known top-level-domain suffixes (the `tld` package
reads the full effective-TLD list; this fixed table stands in for it). -/
def tldTable : List String :=
  ["com", "net", "org", "info", "us", "in", "uk", "co.uk", "edu", "gov",
   "biz", "de", "ru", "fr", "tv", "me"]

/-- The hostname of a URL: the part between `://` and the next `/`, after a
final `@` if any, before a `:` port if any, lowercased.  Model of what the
`tld` package extracts before matching suffixes. -/
def hostnameOf (u : String) : String :=
  match breakOnL "://".data u.data with
  | none => ""
  | some (_, rest) =>
    let netloc := rest.takeWhile (fun c => c ≠ '/')
    let afterUser := ((splitOnL ['@'] (netloc.length + 1) netloc).getLast?.getD [])
    let host := afterUser.takeWhile (fun c => c ≠ ':')
    ⟨host.map Char.toLower⟩

/-- First index `i` such that the suffix of labels starting at `i` is in the
TLD table (the library tries the longest suffix first). -/
def tldSuffixIdx (labels : List String) : Option Nat :=
  (List.range labels.length).find? (fun i =>
    tldTable.contains (intercalateS "." (labels.drop i)))

/-- Model of `tld.get_tld(s, fix_protocol=True, as_object=True)`.  With
`fix_protocol`, a missing scheme is patched with a generic one; a URL with
an empty hostname raises `TldBadUrl`; a hostname whose suffix is not in the
TLD table (or which is itself just a TLD) raises `TldDomainNotFound` with
the hostname as the reported domain name. -/
def getTld (s : String) : Except TldError TldResult :=
  let u := if strStartsWith s "http://" || strStartsWith s "https://" ||
      strStartsWith s "ftp://" || strStartsWith s "//" then s else "https://" ++ s
  let host := hostnameOf u
  if host = "" then Except.error TldError.badUrl
  else
    let labels := splitOnS host "."
    match tldSuffixIdx labels with
    | none => Except.error (TldError.domainNotFound host)
    | some 0 => Except.error (TldError.domainNotFound host)
    | some (i + 1) =>
      Except.ok
        { domain := labels.getD i ""
          fld := intercalateS "." (labels.drop i) }

/-- Model of `urlparse(s).path`: for a URL with a scheme and network
location, everything from the first `/` after the authority (empty if
none); for a plain string without `://`, the string itself.  (Query and
fragment splitting and bare `scheme:` URLs are not modelled; no input
considered here uses them.) -/
def urlparsePath (s : String) : String :=
  match breakOnL "://".data s.data with
  | none => s
  | some (_, rest) =>
    match breakOnL ['/'] rest with
    | none => ""
    | some (_, p) => ⟨'/' :: p⟩

/-- The structural last tier of `get_domain`: split `urlparse(s).path` on
`.`; with at least three segments take the second (or, with `full`,
everything from the second on); otherwise the whole path (or its first
`.`-segment without `full`). -/
def getDomainTier3 (s : String) (full : Bool) : String :=
  let parts := splitOnS (urlparsePath s) "."
  if parts.length ≥ 3 then
    (if full then intercalateS "." (parts.drop 1) else parts.getD 1 "")
  else (if full then urlparsePath s else parts.getD 0 "")

/-- The retry tier of `get_domain`: parse `s1` (the input with the reported
fragment replaced); a second `TldDomainNotFound` falls back to the
structural tier on the original input; any other exception propagates. -/
def getDomainTier2 (s s1 : String) (full : Bool) : Except TldError String :=
  match getTld s1 with
  | Except.ok extract =>
    Except.ok (if full then extract.fld else extract.domain)
  | Except.error (TldError.domainNotFound _) =>
    Except.ok (getDomainTier3 s full)
  | Except.error e => Except.error e

/-- `get_domain(s, full)`: three-tier fallback.  Tier 1: TLD-aware parse.
On `TldDomainNotFound`, the reported fragment is replaced by `http` (first
occurrence) and the parse retried (tier 2).  On a second
`TldDomainNotFound`, a structural split of `urlparse(s).path` on `.`
(tier 3).  Any other exception (`TldBadUrl`) propagates, as the source only
catches `TldDomainNotFound`. -/
def get_domain (s : String) (full : Bool) : Except TldError String :=
  match getTld s with
  | Except.ok extract =>
    Except.ok (if full then extract.fld else extract.domain)
  | Except.error (TldError.domainNotFound invalid_tld) =>
    getDomainTier2 s (replaceFirstS s invalid_tld "http") full
  | Except.error e => Except.error e

/-! ## `perform_similarity_checks` -/

/-- The four similarity variants computed per link: as is, spaces stripped
from the name, hyphens stripped from both, and both stripped from both;
their Python `max`. -/
def fourMax (domain name : String) : Frac :=
  let t1 := similar_ratio domain name
  let t2 := similar_ratio domain (replaceAllS name " " "")
  let t3 := similar_ratio (replaceAllS domain "-" "") (replaceAllS name "-" "")
  let t4 := similar_ratio (replaceAllS (replaceAllS domain "-" "") " " "")
    (replaceAllS (replaceAllS name "-" "") " " "")
  Frac.pymax4 t1 t2 t3 t4

/-- The loop of `perform_similarity_checks`: `t1..t4` are reassigned on each
iteration and the loop breaks once their max reaches the threshold; after
the loop the max of the current `t1..t4` is returned (`cur` carries that
max, `⟨0, 1⟩` standing for the initial integer `0`s).  A raising
`get_domain` propagates. -/
def simLoop (name : String) (cur : Frac) : List String → Except TldError Frac
  | [] => Except.ok cur
  | link :: rest =>
    match get_domain link false with
    | Except.error e => Except.error e
    | Except.ok domain =>
      let m := fourMax domain name
      if Frac.le SIMILAR_THRESHOLD m then Except.ok m
      else simLoop name m rest

/-- `perform_similarity_checks(post, name)`. -/
def perform_similarity_checks (post name : String) : Except TldError Frac :=
  simLoop name ⟨0, 1⟩ (post_links post)

/-- Written from the spec's words, for the refinement comparison in claim
C3: "the maximum observed ratio across all links and variants" — the
maximum of the four-variant similarity over all extracted links, with no
early exit. -/
def perform_similarity_checks_spec (post name : String) : Except TldError Frac :=
  (post_links post).foldlM
    (fun acc link =>
      match get_domain link false with
      | Except.error e => Except.error e
      | Except.ok domain => Except.ok (Frac.pymax acc (fourMax domain name)))
    ⟨0, 1⟩

/-! ## The rule/post data model and the evaluation engine `FindSpam.test_post` -/

/-- A post, as consumed by `FindSpam.test_post` (`body_is_summary` marks a
truncated body; `parent`/sibling context is only used by whole-post
detectors, which receive the entire `Post`). -/
structure Post where
  title : String
  body : String
  user_name : String
  post_site : String
  owner_rep : Int
  post_score : Int
  is_answer : Bool
  body_is_summary : Bool
deriving DecidableEq, Repr

/-- The three detector shapes dispatched by the engine.  A compiled regular
expression is represented by its two operations the engine uses, `findall`
and `finditer` (span start, span end, matched text); a procedural method
takes `(field_text, site, username)`; a whole-post method takes the whole
post and returns the 4-way result.  Methods may raise
(`Except.error ()`). -/
inductive RuleCheck where
  | regexCheck (findall : String → List String)
      (finditer : String → List (Nat × Nat × String))
  | method (f : String → String → String → Except Unit (Bool × String))
  | wholePost (f : Post → Except Unit (Bool × Bool × Bool × String))

/-- A rule of the catalog: reason template, detector, site scope
(`all = true` means all sites except `sites`; `all = false` means only
`sites`), field flags, preprocessing flags, answer/question applicability
(`none` models an absent dictionary key, defaulted to `true` by the
engine's `try`/`except KeyError`), and the reputation/score ceilings. -/
structure Rule where
  reason : String
  check : RuleCheck
  all : Bool
  sites : List String
  title : Bool
  body : Bool
  username : Bool
  stripcodeblocks : Bool
  body_summary : Bool
  answers : Option Bool
  questions : Option Bool
  max_rep : Int
  max_score : Int

/-- The gate of a rule (`findspam.py` line 1125):
`rule['all'] != (post.post_site in rule['sites']) and
post.owner_rep <= rule['max_rep'] and post.post_score <= rule['max_score']`. -/
def applies (rule : Rule) (post : Post) : Bool :=
  (rule.all != rule.sites.contains post.post_site) &&
    decide (post.owner_rep ≤ rule.max_rep) && decide (post.post_score ≤ rule.max_score)

/-- The body-field applicability condition (lines 1134–1136 / 1160–1162):
`(not post.body_is_summary or rule['body_summary']) and
(not post.is_answer or check_if_answer) and
(post.is_answer or check_if_question)`. -/
def bodyCond (rule : Rule) (post : Post) : Bool :=
  (!post.body_is_summary || rule.body_summary) &&
    (!post.is_answer || rule.answers.getD true) &&
    (post.is_answer || rule.questions.getD true)

/-- Removal of the invisible formatting characters `\xad`, `​`,
`‌` (line 1113). -/
def stripInvisible (s : String) : String :=
  ⟨s.data.filter (fun c => !(c = '\u00AD' || c = '\u200B' || c = '\u200C'))⟩

/-- The code-block placeholder substituted by the engine. -/
def codePlaceholder : String :=
  "<pre><code>placeholder for omitted code/код block</pre></code>"

/-- Lazy region replacement: each region from `openT` to the next `closeT`
is replaced by `repl`; an `openT` with no following `closeT` is left alone.
Model of `regex.sub("(?s)<pre>.*?</pre>", repl, s)` and the `<code>`
analogue. -/
def lazyReplaceL (openT closeT repl : List Char) : Nat → List Char → List Char
  | 0, l => l
  | _ + 1, [] => []
  | fuel + 1, c :: cs =>
    if openT.isPrefixOf (c :: cs) then
      match breakOnL closeT ((c :: cs).drop openT.length) with
      | some (_, rest) => repl ++ lazyReplaceL openT closeT repl fuel rest
      | none => c :: cs
    else c :: lazyReplaceL openT closeT repl fuel cs

/-- `regex.sub("(?s)<pre>.*?</pre>", placeholder, s)`. -/
def subPre (s : String) : String :=
  ⟨lazyReplaceL "<pre>".data "</pre>".data codePlaceholder.data (s.data.length + 1) s.data⟩

/-- `regex.sub("(?s)<code>.*?</code>", placeholder, s)`. -/
def subCode (s : String) : String :=
  ⟨lazyReplaceL "<code>".data "</code>".data codePlaceholder.data (s.data.length + 1) s.data⟩

/-- Removal of a tag-like match `openT[^>]+>`: at each occurrence of
`openT` followed by at least one non-`>` character and then `>`, the whole
match is removed.  Model of `regex.sub("<img[^>]+>", "", s)` and the
`<a[^>]+>` analogue. -/
def removeTagAttrL (openT : List Char) : Nat → List Char → List Char
  | 0, l => l
  | _ + 1, [] => []
  | fuel + 1, c :: cs =>
    if openT.isPrefixOf (c :: cs) then
      let after := (c :: cs).drop openT.length
      let run := after.takeWhile (fun x => x ≠ '>')
      if !run.isEmpty && (after.drop run.length).head? = some '>' then
        removeTagAttrL openT fuel (after.drop (run.length + 1))
      else c :: removeTagAttrL openT fuel cs
    else c :: removeTagAttrL openT fuel cs

/-- `regex.sub("<img[^>]+>", "", s)`. -/
def removeImgTags (s : String) : String :=
  ⟨removeTagAttrL "<img".data (s.data.length + 1) s.data⟩

/-- `regex.sub("<a[^>]+>", "", s)`. -/
def removeATags (s : String) : String :=
  ⟨removeTagAttrL "<a".data (s.data.length + 1) s.data⟩

/-- The per-rule preprocessing of the body (lines 1103–1124): strip
invisible characters, substitute code blocks when `stripcodeblocks`, and —
for the one literal reason string `'Phone number detected in {}'` (which no
rule of the catalog carries, its reasons being lowercase) — strip image and
anchor tags. -/
def preprocessBody (rule : Rule) (post : Post) : String :=
  let b := stripInvisible post.body
  let b := if rule.stripcodeblocks then subCode (subPre b) else b
  if rule.reason = "Phone number detected in \x7b\x7d" then
    removeATags (removeImgTags b)
  else b

/-- `FindSpam.generate_why` (lines 1183–1193): for a regex check, the
1-based match positions and texts joined by commas, prefixed by the field
name; for any other check, the empty string.  (The source passes
`compiled_regex = None` exactly when `is_regex_check` is false, so the
`none` case with `is_regex_check = true` cannot arise from `test_post`.) -/
def FindSpam.generate_why (compiled : Option (String → List (Nat × Nat × String)))
    (matched_text type_of_text : String) (is_regex_check : Bool) : String :=
  if is_regex_check then
    let ms := (compiled.map (fun f => f matched_text)).getD []
    type_of_text ++ " - " ++ intercalateS ", "
      (ms.map (fun m => "Position " ++ toString (m.1 + 1) ++ "-" ++
        toString (m.2.1 + 1) ++ ": " ++ m.2.2))
  else ""

/-- Per-rule contribution to the verdict: explanation lines appended to the
title, body and username buckets, and reason strings appended to `result`,
in the source's append order. -/
abbrev RuleOut := List String × List String × List String × List String

/-- The final `if matched_* and rule[...]` block (lines 1166–1176) for a
regex rule, together with the body gating of lines 1134–1137
(`matched_body` stays `None` when the body condition fails). -/
def finalRegex (rule : Rule) (post : Post)
    (finditer : String → List (Nat × Nat × String)) (body_to_check : String)
    (mt mu : List String) (mb : Option (List String)) : RuleOut :=
  let whyT := if !mt.isEmpty && rule.title then
    [FindSpam.generate_why (some finditer) post.title "Title" true] else []
  let resT := if !mt.isEmpty && rule.title then
    [replaceAllS rule.reason "\x7b\x7d" "title"] else []
  let whyU := if !mu.isEmpty && rule.username then
    [FindSpam.generate_why (some finditer) post.user_name "Username" true] else []
  let resU := if !mu.isEmpty && rule.username then
    [replaceAllS rule.reason "\x7b\x7d" "username"] else []
  let whyB :=
    match mb with
    | some l =>
      if !l.isEmpty && rule.body then
        [FindSpam.generate_why (some finditer) body_to_check "Body" true] else []
    | none => []
  let resB :=
    match mb with
    | some l =>
      if !l.isEmpty && rule.body then
        [replaceAllS rule.reason "\x7b\x7d" (if post.is_answer then "answer" else "body")]
      else []
    | none => []
  (whyT, whyB, whyU, resT ++ resU ++ resB)

/-- Assembly for a procedural (per-field method) rule: the in-branch
explanation appends of lines 1154–1165 followed by the final block of lines
1166–1176 (whose `generate_why` contribution is `""` for a non-regex
check). -/
def finalMethod (rule : Rule) (post : Post) (body_to_check : String)
    (mt : Bool) (why_title : String) (mu : Bool) (why_username : String)
    (mb : Option (Bool × String)) : RuleOut :=
  let preT := if mt && rule.title then ["Title - " ++ why_title] else []
  let preU := if mu && rule.username then ["Username - " ++ why_username] else []
  let preB :=
    match mb with
    | some (m, w) => if m && rule.body then ["Post - " ++ w] else []
    | none => []
  let finT := if mt && rule.title then
    [FindSpam.generate_why none post.title "Title" false] else []
  let resT := if mt && rule.title then
    [replaceAllS rule.reason "\x7b\x7d" "title"] else []
  let finU := if mu && rule.username then
    [FindSpam.generate_why none post.user_name "Username" false] else []
  let resU := if mu && rule.username then
    [replaceAllS rule.reason "\x7b\x7d" "username"] else []
  let finB :=
    match mb with
    | some (m, _) =>
      if m && rule.body then
        [FindSpam.generate_why none body_to_check "Body" false] else []
    | none => []
  let resB :=
    match mb with
    | some (m, _) =>
      if m && rule.body then
        [replaceAllS rule.reason "\x7b\x7d" (if post.is_answer then "answer" else "body")]
      else []
    | none => []
  (preT ++ finT, preB ++ finB, preU ++ finU, resT ++ resU ++ resB)

/-- Assembly for a whole-post rule: the `if`/`elif` chain of lines
1141–1152 (which records at most one field, in the order title, username,
body, ignoring the field flags) followed by the final block of lines
1166–1176 (which consults the field flags and can append again). -/
def finalWhole (rule : Rule) (post : Post) (body_to_check : String)
    (mt mu mb : Bool) (why_post : String) : RuleOut :=
  let pre : RuleOut :=
    if mt then (["Title - " ++ why_post], [], [], [replaceAllS rule.reason "\x7b\x7d" "title"])
    else if mu then ([], [], ["Username - " ++ why_post],
      [replaceAllS rule.reason "\x7b\x7d" "username"])
    else if mb then ([], ["Post - " ++ why_post], [],
      [replaceAllS rule.reason "\x7b\x7d" "body"])
    else ([], [], [], [])
  let finT := if mt && rule.title then
    [FindSpam.generate_why none post.title "Title" false] else []
  let resT := if mt && rule.title then
    [replaceAllS rule.reason "\x7b\x7d" "title"] else []
  let finU := if mu && rule.username then
    [FindSpam.generate_why none post.user_name "Username" false] else []
  let resU := if mu && rule.username then
    [replaceAllS rule.reason "\x7b\x7d" "username"] else []
  let finB := if mb && rule.body then
    [FindSpam.generate_why none body_to_check "Body" false] else []
  let resB := if mb && rule.body then
    [replaceAllS rule.reason "\x7b\x7d" (if post.is_answer then "answer" else "body")]
    else []
  (pre.1 ++ finT, pre.2.1 ++ finB, pre.2.2.1 ++ finU, pre.2.2.2 ++ resT ++ resU ++ resB)

/-- Evaluation of a single rule against a post (the body of the `for`
loop of `FindSpam.test_post`, lines 1103–1176).  A rule whose gate fails
contributes nothing and cannot raise; detector exceptions propagate, in the
source's call order (title method, then username method, then body
method). -/
def evalRule (rule : Rule) (post : Post) : Except Unit RuleOut :=
  let body_to_check := preprocessBody rule post
  if applies rule post then
    match rule.check with
    | RuleCheck.regexCheck findall finditer =>
      let mt := findall post.title
      let mu := findall post.user_name
      let mb : Option (List String) :=
        if bodyCond rule post then some (findall body_to_check) else none
      Except.ok (finalRegex rule post finditer body_to_check mt mu mb)
    | RuleCheck.method f =>
      match f post.title post.post_site post.user_name with
      | Except.error e => Except.error e
      | Except.ok (mt, why_title) =>
        match f post.user_name post.post_site post.user_name with
        | Except.error e => Except.error e
        | Except.ok (mu, why_username) =>
          if bodyCond rule post then
            match f body_to_check post.post_site post.user_name with
            | Except.error e => Except.error e
            | Except.ok (mbv, why_body) =>
              Except.ok (finalMethod rule post body_to_check mt why_title mu why_username
                (some (mbv, why_body)))
          else
            Except.ok (finalMethod rule post body_to_check mt why_title mu why_username none)
    | RuleCheck.wholePost f =>
      match f post with
      | Except.error e => Except.error e
      | Except.ok (mt, mu, mb, why_post) =>
        Except.ok (finalWhole rule post body_to_check mt mu mb why_post)
  else Except.ok ([], [], [], [])

/-- The rule iteration of `FindSpam.test_post`: rules evaluated in order,
their contributions concatenated; the first detector exception aborts the
whole evaluation. -/
def runRules : List Rule → Post → Except Unit RuleOut
  | [], _ => Except.ok ([], [], [], [])
  | r :: rs, p =>
    match evalRule r p with
    | Except.error e => Except.error e
    | Except.ok (t1, b1, u1, r1) =>
      match runRules rs p with
      | Except.error e => Except.error e
      | Except.ok (t2, b2, u2, r2) => Except.ok (t1 ++ t2, b1 ++ b2, u1 ++ u2, r1 ++ r2)

/-- The final assembly of lines 1177–1181: `result = list(set(result));
result.sort()` (modelled as sort of the deduplicated list — the set's
iteration order is irrelevant after sorting) and
`why = "\n".join(chain(filter(None, title), filter(None, body),
filter(None, username))).strip()`. -/
def assembleVerdict : RuleOut → List String × String
  | (t, b, u, res) =>
    (List.insertionSort strLeProp res.dedup,
     trimS (intercalateS "\n"
       ((t.filter (fun x => x ≠ "")) ++ (b.filter (fun x => x ≠ "")) ++
        (u.filter (fun x => x ≠ "")))))

/-- `FindSpam.test_post(post)` over an externally supplied rule catalog:
returns the pair `(result, why)`, or propagates the first detector
exception. -/
def FindSpam.test_post (rules : List Rule) (post : Post) :
    Except Unit (List String × String) :=
  match runRules rules post with
  | Except.error e => Except.error e
  | Except.ok out => Except.ok (assembleVerdict out)

/-! ## Procedural detectors

The complex compiled patterns the detectors use are configuration data (see
the spec's non-goals); they are abstracted as the explicit function bundle
`RegexOps` below, one field per compiled-pattern operation, while simple
patterns (literal alternations, single-character classes, runs) are
implemented concretely. -/

/-- One field per compiled-pattern operation used by the detectors:
`search`-style operations return `Option` of the matched text (`group(0)`
or the single captured group), `findall`-style operations return the list
of captures, predicates model truthiness tests on a match object.  The
two `pattern_product_name` operations receive the (site-dependent) keyword
list the pattern is built from. -/
structure RegexOps where
  link_at_end_search : String → Option String
  link_at_end_bad : String → Bool
  nofollow_links : String → List String
  phone_guard : String → Bool
  phone_findall : String → List String
  phone_check : String → Option String → Bool
  cs_phrase : String → Option String
  cs_business : String → Option String
  cs_keywords : String → List String
  health_organ : String → Option String
  health_condition : String → Option String
  health_goal : String → Option String
  health_remedy : String → Option String
  health_boast : String → Option String
  health_other : String → Option String
  product_three : List String → String → List (String × String × String × String)
  product_two : List String → String → List (String × String × String)
  ke_keyword : String → Option String
  ke_email : String → Option String
  ke_obfuscated : String → Option String
  pe_search : String → Option String
  kl_link : String → Option String
  kl_link_bad : String → Bool
  kl_praise : String → Option String
  kl_thanks : String → Option String
  kl_keyword : String → Option String
  blt_keywords : String → Option String
  blt_business : String → Option String
  blt_support : String → Option String
  bpu_findall : String → List (String × String)
  bpu_is_se : String → Bool
  offensive_finditer : String → List (Nat × Nat × String)
  latin_or_cyrillic : Char → Bool

/-- A word character for the ASCII fragment of `\w` (the detectors below
only need it on ASCII input). -/
def isWordChar (c : Char) : Bool := c.isAlphanum || c = '_'

/-- `regex.sub("</?p>", "", s)`: removal of `<p>` and `</p>`, modelled as
two sequential literal replacements (equivalent to the single-pass
alternation except on adversarial inputs where removing one tag creates
another, which no HTML input does). -/
def removePTags (s : String) : String :=
  ⟨replaceAllL "</p>".data [] (s.data.length + 1)
    (replaceAllL "<p>".data [] (s.data.length + 1) s.data)⟩

/-- `regex.sub('http[^"]*', "", s)`: from each `http` occurrence, remove up
to (excluding) the next `"`. -/
def removeHttpRunsL : Nat → List Char → List Char
  | 0, l => l
  | _ + 1, [] => []
  | fuel + 1, c :: cs =>
    if "http".data.isPrefixOf (c :: cs) then
      let rest := (c :: cs).drop 4
      removeHttpRunsL fuel (rest.drop (rest.takeWhile (fun x => x ≠ '"')).length)
    else c :: removeHttpRunsL fuel cs

/-- `regex.sub('http[^"]*', "", s)` on `String`. -/
def removeHttpRuns (s : String) : String :=
  ⟨removeHttpRunsL (s.data.length + 1) s.data⟩

/-- Run-length encoding of a character list. -/
def rle : List Char → List (Char × Nat)
  | [] => []
  | c :: cs =>
    match rle cs with
    | [] => [(c, 1)]
    | (d, n) :: rest => if c = d then (d, n + 1) :: rest else (c, 1) :: (d, n) :: rest

/-- A character admitted by the repeated-character class
`[^\s_​‌.,?!=~*/0-9-]`. -/
def allowedRepChar (c : Char) : Bool :=
  !(c.isWhitespace || c.isDigit ||
    ['_', '​', '‌', '.', ',', '?', '!', '=', '~', '*', '/', '-'].contains c)

/-- The concatenation of all findall matches of
`([^\s_​‌.,?!=~*/0-9-])(\1{10,})` joined group-wise: every
maximal run of an admitted character with length at least 11 contributes
itself in full. -/
def repeatRuns (s : String) : String :=
  ⟨((rle s.data).filter (fun p => allowedRepChar p.1 && p.2 ≥ 11)).foldl
    (fun acc p => acc ++ List.replicate p.2 p.1) []⟩

/-- Count of findall matches of `\b[A-Z][a-z]` (an upper-case letter not
preceded by a word character, followed by a lower-case letter). -/
def capCountL (prev : Option Char) : List Char → Nat
  | [] => 0
  | [_] => 0
  | c :: d :: rest =>
    (if (match prev with | some p => !isWordChar p | none => true) &&
        c.isUpper && d.isLower then 1 else 0) + capCountL (some c) (d :: rest)

/-- `len(regex.compile(r"\b[A-Z][a-z]").findall(s)) >= 5`; matches cannot
overlap a previous match's second character only in ways that do not affect
this count for ASCII text (`[a-z]` is not `[A-Z]`). -/
def capCount (s : String) : Nat := capCountL none s.data

/-- Search for `(?is)\beltima`: a case-insensitive `eltima` preceded by a
word boundary.  Takes the already-lowercased character list. -/
def eltimaSearchL (prev : Option Char) : List Char → Bool
  | [] => false
  | c :: cs =>
    ((match prev with | some p => !isWordChar p | none => true) &&
      "eltima".data.isPrefixOf (c :: cs)) ||
    eltimaSearchL (some c) cs

/-- `regex.sub(r'(?u)[\W0-9]|http\S*', "", s)`: each non-word-or-digit
character is removed, and each `http` occurrence (at a word character, so
not consumed by the class branch) is removed together with the following
run of non-whitespace. -/
def mnlFilterL : Nat → List Char → List Char
  | 0, l => l
  | _ + 1, [] => []
  | fuel + 1, c :: cs =>
    if !isWordChar c || c.isDigit then mnlFilterL fuel cs
    else if "http".data.isPrefixOf (c :: cs) then
      mnlFilterL fuel (((c :: cs).drop 4).dropWhile (fun x => !x.isWhitespace))
    else c :: mnlFilterL fuel cs

/-- `regex.sub(r"</?.+?>|\w+?://", "", s)`: lazy tags `<…>` (at least one
non-newline character before the next `>`) and scheme fragments (a word
run immediately followed by `://`) are removed. -/
def tagSchemeSubL : Nat → List Char → List Char
  | 0, l => l
  | _ + 1, [] => []
  | fuel + 1, c :: cs =>
    if c = '<' then
      -- lazy `</?.+?>`: the closing `>` must come after at least one
      -- non-newline character (the optional `/` is subsumed by `.+?`)
      match breakOnL ['>'] (cs.drop 1) with
      | some (mid, rest) =>
        if ((cs.take 1) ++ mid).all (fun x => x ≠ '\n') && !(cs.take 1).isEmpty then
          tagSchemeSubL fuel rest
        else c :: tagSchemeSubL fuel cs
      | none => c :: tagSchemeSubL fuel cs
    else if isWordChar c then
      let run := (c :: cs).takeWhile isWordChar
      if "://".data.isPrefixOf ((c :: cs).drop run.length) then
        tagSchemeSubL fuel ((c :: cs).drop (run.length + 3))
      else run ++ tagSchemeSubL fuel ((c :: cs).drop run.length)
    else c :: tagSchemeSubL fuel cs

/-- `strip_urls_and_tags(string)` (lines 535–536):
`regex.sub(r"</?.+?>|\w+?://", "", regex.sub(URL_REGEX, "", string))`. -/
def strip_urls_and_tags (s : String) : String :=
  ⟨tagSchemeSubL ((urlSub s).data.length + 1) (urlSub s).data⟩

/-- `has_repeated_words` (lines 54–67), loop part: the streak counter over
the word list.  The length condition `streak * len(word) >= 0.2 * len(s)`
is the exact-rational form `5 * streak * len(word) >= len(s)` (no input
here sits on the float-rounding boundary); `str.isalpha` is modelled over
ASCII, per the header conventions. -/
def hrwLoop (s : String) : List String → Nat → String → Bool × String
  | [], _, _ => (false, "")
  | word :: rest, streak, prev =>
    let streak := if word = prev &&
        (!word.data.isEmpty && word.data.all Char.isAlpha) && word.data.length > 1 then
      streak + 1 else 0
    if streak ≥ 5 && 5 * (streak * word.data.length) ≥ s.data.length then
      (true, "Repeated word: *" ++ word ++ "*")
    else hrwLoop s rest streak word

/-- The delimiter class of `has_repeated_words`:
`[\s.,;!/\()\[\]+_-]`. -/
def hrwDelim (c : Char) : Bool :=
  c.isWhitespace ||
    ['.', ',', ';', '!', '/', '(', ')', '[', ']', '+', '_', '-'].contains c

/-- `has_repeated_words(s, site, *args)`. -/
def has_repeated_words (s site username : String) : Bool × String :=
  let words := ((splitPredL hrwDelim s.data).map strL).filter (fun w => w ≠ "")
  hrwLoop s words 0 ""

/-- `has_few_characters(s, site, *args)` (lines 71–79). -/
def has_few_characters (s site username : String) : Bool × String :=
  let s := trimRightS (removePTags s)
  let uniques := s.data.dedup.length
  if (s.data.length ≥ 30 && uniques ≤ 6) || (s.data.length ≥ 100 && uniques ≤ 15) then
    if uniques ≤ 15 && uniques ≥ 5 && site = "math.stackexchange.com" then
      (false, "")
    else (true, "Contains " ++ toString uniques ++ " unique characters")
  else (false, "")

/-- `has_repeating_characters(s, site, *args)` (lines 83–91).  The
percentage condition `(100 * len(match) / len(s)) >= 20` is the exact form
`100 * len(match) >= 20 * len(s)`. -/
def has_repeating_characters (s site username : String) : Bool × String :=
  let s := removeHttpRuns s
  if s.data.length = 0 || s.data.length ≥ 300 ||
      containsS s "<pre>" || containsS s "<code>" then (false, "")
  else
    let m := repeatRuns s
    if 100 * m.data.length ≥ 20 * s.data.length then
      (true, "Repeated character: *" ++ m ++ "*")
    else (false, "")

/-- `link_at_end(s, site, *args)` (lines 95–104); the closing-tag removal
`</strong>|</em>|</p>` is modelled as three sequential literal replacements
(see the note on `removePTags`). -/
def link_at_end (ops : RegexOps) (s site username : String) : Bool × String :=
  let s := replaceAllS (replaceAllS (replaceAllS s "</strong>" "") "</em>" "") "</p>" ""
  match ops.link_at_end_search s with
  | some m => if ops.link_at_end_bad m then (false, "") else (true, "Link at end: " ++ m)
  | none => (false, "")

/-- The per-link loop of `non_english_link`: `\W` removal and then `\w`
removal (both Unicode word classes, so the second always leaves the empty
string); the `0.05` condition in its exact-rational form. -/
def nelLoop : List String → Bool × String
  | [] => (false, "")
  | link_text :: rest =>
    let word_chars := link_text.data.filter isWordChar
    let non_latin_chars := word_chars.filter (fun c => !isWordChar c)
    if word_chars.length ≥ 1 &&
        ((word_chars.length ≤ 20 && non_latin_chars.length ≥ 1) ||
          (20 * non_latin_chars.length ≥ word_chars.length)) then
      (true, "Non-English link text: *" ++ link_text ++ "*")
    else nelLoop rest

/-- `non_english_link(s, site, *args)` (lines 108–117). -/
def non_english_link (ops : RegexOps) (s site username : String) : Bool × String :=
  if s.data.length < 600 then nelLoop (ops.nofollow_links s)
  else (false, "")

/-- `mostly_non_latin(s, site, *args)` (lines 121–126); the `0.4` condition
in its exact-rational form `5 * non_latin > 2 * word`. -/
def mostly_non_latin (ops : RegexOps) (s site username : String) : Bool × String :=
  let word_chars := mnlFilterL (s.data.length + 1) s.data
  let non_latin_chars := word_chars.filter (fun c => !ops.latin_or_cyrillic c)
  if 5 * non_latin_chars.length > 2 * word_chars.length then
    (true, "Text contains " ++ toString non_latin_chars.length ++
      " non-Latin characters out of " ++ toString word_chars.length)
  else (false, "")

/-- The deobfuscation map of `has_phone_number`: `O/o → 0`, `S/s → 5`,
`I/i → 1`. -/
def phoneDeobf (c : Char) : Char :=
  if c = 'O' || c = 'o' then '0'
  else if c = 'S' || c = 's' then '5'
  else if c = 'I' || c = 'i' then '1'
  else c

/-- The country hints tried by `has_phone_number`. -/
def phoneFormats : List (Option String) := [some "IN", some "US", some "NG", none]

/-- The per-candidate loop of `has_phone_number`: an error-code/IP prefix
aborts the whole detector with no match; otherwise the `phonenumbers`
collaborator (`ops.phone_check`, false on a parse exception) is tried per
country hint. -/
def phnLoop (ops : RegexOps) : List String → Bool × String
  | [] => (false, "")
  | pn :: rest =>
    if ["214746725", "214746726", "214748364", "192168"].any
        (fun p => strStartsWith pn p) then (false, "")
    else if phoneFormats.any (fun tf => ops.phone_check pn tf) then
      (true, "Phone number: " ++ pn)
    else phnLoop ops rest

/-- `has_phone_number(s, site, *args)` (lines 130–153). -/
def has_phone_number (ops : RegexOps) (s site username : String) : Bool × String :=
  if ops.phone_guard s then (false, "")
  else
    let s : String := ⟨s.data.filter (fun c =>
      c.isAlpha || c.isDigit || c.isWhitespace || c = '"' || c = '\'' || c = ',')⟩
    let s : String := ⟨s.data.map phoneDeobf⟩
    phnLoop ops (ops.phone_findall s)

/-- `has_customer_service(s, site, *args)` (lines 157–174). -/
def has_customer_service (ops : RegexOps) (s site username : String) : Bool × String :=
  let s := lowerS (takeS 300 s)
  let s : String := ⟨s.data.filter (fun c => c.isAlpha || c.isDigit || c.isWhitespace)⟩
  let phrase := ops.cs_phrase s
  if phrase.isSome &&
      ["askubuntu.com", "webapps.stackexchange.com",
        "webmasters.stackexchange.com"].contains site then
    (true, "Key phrase: *" ++ phrase.getD "" ++ "*")
  else
    let business := ops.cs_business s
    let digits := (s.data.filter Char.isDigit).length
    if business.isSome && digits ≥ 5 then
      let keywords := ops.cs_keywords s
      if keywords.dedup.length ≥ 2 then
        (true, "Scam aimed at *" ++ business.getD "" ++ "* customers. Keywords: *" ++
          intercalateS ", " keywords ++ "*")
      else (false, "")
    else (false, "")

/-- `has_health(s, site, *args)` (lines 178–206). -/
def has_health (ops : RegexOps) (s site username : String) : Bool × String :=
  let s := takeS 200 s
  let capitalized := decide (capCount s ≥ 5)
  let organ := ops.health_organ s
  let condition := ops.health_condition s
  let goal := ops.health_goal s
  let remedy := ops.health_remedy s
  let boast := ops.health_boast s
  let other := ops.health_other s
  let score := 4 * (if organ.isSome then 1 else 0) +
    2 * (if condition.isSome then 1 else 0) + 2 * (if goal.isSome then 1 else 0) +
    2 * (if remedy.isSome then 1 else 0) + (if boast.isSome then 1 else 0) +
    (if other.isSome then 1 else 0) + (if capitalized then 1 else 0)
  if score ≥ 8 then
    let words := [organ, condition, goal, remedy, boast, other].filterMap id
    (true, "Health-themed spam (score " ++ toString score ++ "). Keywords: *" ++
      lowerS (intercalateS ", " words) ++ "*")
  else (false, "")

/-- The base product-name keyword list of `pattern_product_name`. -/
def productKeywordsBase : List String :=
  ["Testo?", "Dermapholia", "Garcinia", "Cambogia", "Aurora", "Kamasutra",
   "HL-?12", "NeuroFuse", "Junivive", "Apexatropin", "Gain", "Allure",
   "Nuvella", "Trimgenix", "Satin", "Prodroxatone", "Elite", "Force",
   "Exceptional", "Enhance(ment)?", "Nitro", "Max", "Boost", "E?xtreme",
   "Grow", "Deep", "Male", "Pro", "Advanced", "Monster", "Divine", "Royale",
   "Angele", "Trinity", "Andro", "Pure", "Skin", "Sea", "Muscle", "Ascend",
   "Youth", "Hyper(tone)?", "Hydroluxe", "Booster", "Serum", "Supplement",
   "Fuel", "Cream"]

/-- The extra keywords added outside the two math sites. -/
def productKeywordsExtra : List String :=
  ["E?X[tl\\d]?", "Alpha", "Plus", "Prime", "Formula"]

/-- Modelled from its name and call sites (the helper lives in
`helpers.py`, which is not part of this source tree): all match tuples are
pairwise distinct. -/
def all_matches_unique {α : Type} [DecidableEq α] (l : List α) : Bool :=
  l.dedup.length = l.length

/-- `pattern_product_name(s, site, *args)` (lines 210–226). -/
def pattern_product_name (ops : RegexOps) (s site username : String) : Bool × String :=
  let keywords := productKeywordsBase ++
    (if site ≠ "math.stackexchange.com" && site ≠ "mathoverflow.net" then
      productKeywordsExtra else [])
  let three_words := ops.product_three keywords s
  let two_words := ops.product_two keywords s
  if three_words.length ≥ 1 && all_matches_unique three_words then
    (true, "Pattern-matching product name *" ++ (three_words.headD default).1 ++ "*")
  else if two_words.length ≥ 2 && all_matches_unique two_words then
    (true, "Pattern-matching product name *" ++ (two_words.headD default).1 ++ "*")
  else (false, "")

/-- The anchored match `^what is this (?:[A-Z]|http://)`. -/
def wittMatch (l : List Char) : Bool :=
  "what is this ".data.isPrefixOf l &&
    ((match l.drop 13 with
      | c :: _ => c.isUpper
      | [] => false) ||
      "http://".data.isPrefixOf (l.drop 13))

/-- `what_is_this_pharma_title(s, site, *args)` (lines 230–234). -/
def what_is_this_pharma_title (s site username : String) : Bool × String :=
  if wittMatch s.data then (true, "Title starts with \"what is this\"")
  else (false, "")

/-- `keyword_email(s, site, *args)` (lines 238–255). -/
def keyword_email (ops : RegexOps) (s site username : String) : Bool × String :=
  if (containsS s "<pre>" || containsS s "<code>") && site = "stackoverflow.com" then
    (false, "")
  else
    let keyword := ops.ke_keyword s
    let email := ops.ke_email s
    if keyword.isSome && email.isSome then
      (true, "Keyword *" ++ keyword.getD "" ++ "* with email " ++ email.getD "")
    else
      let obfuscated_email := ops.ke_obfuscated s
      if obfuscated_email.isSome && !email.isSome then
        (true, "Obfuscated email " ++ obfuscated_email.getD "")
      else (false, "")

/-- `pattern_email(s, site, *args)` (lines 259–267). -/
def pattern_email (ops : RegexOps) (s site username : String) : Bool × String :=
  match ops.pe_search (lowerS s) with
  | some p => (true, "Pattern-matching email " ++ p)
  | none => (false, "")

/-- `keyword_link(s, site, *args)` (lines 271–289). -/
def keyword_link (ops : RegexOps) (s site username : String) : Bool × String :=
  if s.data.length > 400 then (false, "")
  else
    match ops.kl_link s with
    | none => (false, "")
    | some lk =>
      if ops.kl_link_bad lk then (false, "")
      else
        let praise := ops.kl_praise s
        let thanks := ops.kl_thanks s
        let keyword := ops.kl_keyword s
        if keyword.isSome then
          (true, "Keyword *" ++ keyword.getD "" ++ "* with link " ++ lk)
        else if thanks.isSome && praise.isSome then
          (true, "Keywords *" ++ thanks.getD "" ++ "*, *" ++ praise.getD "" ++
            "* with link " ++ lk)
        else (false, "")

/-- The per-link loop of `bad_link_text`. -/
def bltLoop (ops : RegexOps) : List String → Bool × String
  | [] => (false, "")
  | link_text :: rest =>
    match ops.blt_keywords link_text with
    | some k => (true, "Bad keyword *" ++ trimS k ++ "* in link text")
    | none =>
      match ops.blt_business link_text, ops.blt_support link_text with
      | some b, some sp =>
        (true, "Bad keywords *" ++ trimS b ++ "*, *" ++ trimS sp ++ "* in link text")
      | _, _ => bltLoop ops rest

/-- `bad_link_text(s, site, *args)` (lines 293–318); the font-tag removal
`</?strong>|</?em>` is modelled as four sequential literal replacements
(see the note on `removePTags`). -/
def bad_link_text (ops : RegexOps) (s site username : String) : Bool × String :=
  let s := replaceAllS (replaceAllS (replaceAllS (replaceAllS s
    "<strong>" "") "</strong>" "") "<em>" "") "</em>" ""
  bltLoop ops (ops.nofollow_links s)

/-- `bad_pattern_in_url(s, site, *args)` (lines 322–336). -/
def bad_pattern_in_url (ops : RegexOps) (s site username : String) : Bool × String :=
  let ms := (ops.bpu_findall s).filter (fun x => !ops.bpu_is_se x.1)
  if !ms.isEmpty then
    (true, "Bad fragment in link " ++ intercalateS ", " (ms.map (fun x => x.1 ++ x.2)))
  else (false, "")

/-- The per-domain loop of `bad_ns_for_url_domain`: domains without a valid
TLD are skipped; every DNS failure path `continue`s (the two `except`
branches differ only in logging); a nameserver ending in
`.namecheaphosting.com.` is a hit. -/
def bnsLoop (dns : String → Except Unit (List String)) : List String → Bool × String
  | [] => (false, "")
  | domain :: rest =>
    if !(getTld domain).toBool then bnsLoop dns rest
    else
      match dns domain with
      | Except.error _ => bnsLoop dns rest
      | Except.ok ns =>
        if ns.any (fun server => strEndsWith server ".namecheaphosting.com.") then
          (true, domain ++ " NS suspicious " ++ intercalateS "," ns)
        else bnsLoop dns rest

/-- Sequence `get_domain(link, full=True)` over a list of links, as in the
set comprehension of `bad_ns_for_url_domain` (a raising `get_domain`
propagates). -/
def domainsOf : List String → Except TldError (List String)
  | [] => Except.ok []
  | l :: ls =>
    match get_domain l true with
    | Except.error e => Except.error e
    | Except.ok d =>
      match domainsOf ls with
      | Except.error e => Except.error e
      | Except.ok ds => Except.ok (d :: ds)

/-- `bad_ns_for_url_domain(s, site, *args)` (lines 339–361); the DNS
resolver is the explicit collaborator `dns`. -/
def bad_ns_for_url_domain (dns : String → Except Unit (List String))
    (s site username : String) : Except TldError (Bool × String) :=
  match domainsOf (post_links s) with
  | Except.error e => Except.error e
  | Except.ok ds => Except.ok (bnsLoop dns (dedupFirst ds))

/-- `is_offensive_post(s, site, *args)` (lines 365–383); the percentage
condition `(1000 * len_of_match / len(s)) >= 15` in its exact-rational
form. -/
def is_offensive_post (ops : RegexOps) (s site username : String) : Bool × String :=
  if s.data.length = 0 then (false, "")
  else
    let ms := ops.offensive_finditer s
    let len_of_match := (ms.map (fun m => m.2.1 - m.1)).foldl (· + ·) 0
    let text_matched := ms.map (fun m => m.2.2)
    if 1000 * len_of_match ≥ 15 * s.data.length then
      (true, "Offensive keyword" ++ (if text_matched.length > 1 then "s" else "") ++
        ": *" ++ intercalateS ", " text_matched ++ "*")
    else (false, "")

/-- `has_eltima(s, site, *args)` (lines 387–391). -/
def has_eltima (s site username : String) : Bool × String :=
  if eltimaSearchL none (lowerS s).data && s.data.length ≤ 750 then
    (true, "Bad keyword *eltima* and body length under 750 chars")
  else (false, "")

/-- `username_similar_website(s, site, *args)` (lines 395–401);
`args[0]` is the username the engine passes along. -/
def username_similar_website (s site username : String) :
    Except TldError (Bool × String) :=
  match perform_similarity_checks s username with
  | Except.error e => Except.error e
  | Except.ok sim_result =>
    if Frac.le SIMILAR_THRESHOLD sim_result then
      Except.ok (true, "Username similar to website")
    else Except.ok (false, "")

/-- `character_utilization_ratio(s, site, *args)` (lines 405–421): the
highest per-character frequency ratio compared against
`CHARACTER_USE_RATIO` (the counter loop only ever needs that maximum; the
returned message contains a literal `{}`, the `.format` call being absent
in the source). -/
def character_utilization_ratio (s site username : String) : Bool × String :=
  let total_chars := s.data.length
  let maxOcc := (s.data.dedup.map (fun c => s.data.count c)).foldl Nat.max 0
  if Frac.lt CHARACTER_USE_RATIO ⟨maxOcc, total_chars⟩ then
    (true, "The `\x7b\x7d` character appears in a high percentage of the post")
  else (false, "")

/-- `mostly_dots(s, site, *args)` (lines 540–549); the `0.4` condition in
its exact-rational form `5 * dots >= 2 * length`. -/
def mostly_dots (s site username : String) : Bool × String :=
  let body := strip_urls_and_tags s
  let body_length := body.data.length
  let dot_count := (body.data.filter (fun c => c = '.')).length
  if body_length ≠ 0 && 5 * dot_count ≥ 2 * body_length then
    (true, "Post contains " ++ toString dot_count ++ " dots out of " ++
      toString body_length ++ " characters")
  else (false, "")

/-- `mevaqesh_troll(s, *args)` (lines 552–558). -/
def mevaqesh_troll (s site username : String) : Bool × String :=
  let s := replaceAllS (lowerS s) " " ""
  if containsS s "mevaqeshthereforehasnoshareintheworldtocome" then
    (true, "Post matches pattern from a known troll")
  else (false, "")

/-! ## Engine lemmas -/

set_option linter.unusedVariables false

/-- A rule whose gate fails contributes nothing and cannot raise. -/
theorem evalRule_gate_skip (rule : Rule) (post : Post)
    (h : applies rule post = false) : evalRule rule post = Except.ok ([], [], [], []) := by
  simp [evalRule, h]

/-- A rule that contributes nothing can be removed from the catalog without
changing the run. -/
theorem runRules_skip (rule : Rule) (post : Post)
    (h : evalRule rule post = Except.ok ([], [], [], [])) :
    ∀ l₁ l₂ : List Rule, runRules (l₁ ++ rule :: l₂) post = runRules (l₁ ++ l₂) post := by
  intro l₁
  induction l₁ with
  | nil =>
    intro l₂
    simp only [List.nil_append, runRules, h]
    cases hr : runRules l₂ post with
    | error e => rfl
    | ok out =>
      obtain ⟨t, b, u, r⟩ := out
      simp
  | cons a as ih =>
    intro l₂
    simp only [List.cons_append, runRules, List.append_eq]
    rw [ih l₂]

/-- A non-applicable rule can be removed without changing the verdict. -/
theorem test_post_skip (rule : Rule) (post : Post)
    (h : applies rule post = false) :
    ∀ l₁ l₂ : List Rule,
      FindSpam.test_post (l₁ ++ rule :: l₂) post = FindSpam.test_post (l₁ ++ l₂) post := by
  intro l₁ l₂
  unfold FindSpam.test_post
  rw [runRules_skip rule post (evalRule_gate_skip rule post h) l₁ l₂]

/-- If any rule of the catalog raises on this post, the whole evaluation
raises. -/
theorem runRules_error (post : Post) :
    ∀ rules : List Rule, (∃ r ∈ rules, evalRule r post = Except.error ()) →
      runRules rules post = Except.error () := by
  intro rules
  induction rules with
  | nil => rintro ⟨r, hr, _⟩; cases hr
  | cons a as ih =>
    rintro ⟨r, hr, herr⟩
    rcases List.mem_cons.mp hr with rfl | hmem
    · simp only [runRules, herr]
    · simp only [runRules]
      cases ha : evalRule a post with
      | error e => cases e; rfl
      | ok out =>
        obtain ⟨t, b, u, rr⟩ := out
        rw [ih ⟨r, hmem, herr⟩]

/-! ## Claim C1 — the gate formula and its ceiling/scope consequences -/

/-- C1: a rule is applicable to a post exactly when
`(mode all-except) XOR (site ∈ site set)` holds together with both
ceilings `owner_rep ≤ max_rep` and `post_score ≤ max_score`; consequently a
non-applicable rule never fires (removing it leaves the verdict of
`FindSpam.test_post` unchanged), in particular an all-except rule on a
listed site, and any rule whose reputation or score ceiling is exceeded,
regardless of content. -/
theorem C1_gate_applicability (rule : Rule) (post : Post) :
    (applies rule post =
      (Bool.xor rule.all (rule.sites.contains post.post_site) &&
        decide (post.owner_rep ≤ rule.max_rep) && decide (post.post_score ≤ rule.max_score))) ∧
    (applies rule post = false →
      ∀ l₁ l₂ : List Rule,
        FindSpam.test_post (l₁ ++ rule :: l₂) post = FindSpam.test_post (l₁ ++ l₂) post) ∧
    (rule.all = true → rule.sites.contains post.post_site = true →
      ∀ l₁ l₂ : List Rule,
        FindSpam.test_post (l₁ ++ rule :: l₂) post = FindSpam.test_post (l₁ ++ l₂) post) ∧
    ((rule.max_rep < post.owner_rep ∨ rule.max_score < post.post_score) →
      ∀ l₁ l₂ : List Rule,
        FindSpam.test_post (l₁ ++ rule :: l₂) post = FindSpam.test_post (l₁ ++ l₂) post) := by
  refine ⟨?_, ?_, ?_, ?_⟩
  · unfold applies
    cases hall : rule.all <;>
      cases hc : rule.sites.contains post.post_site <;> rfl
  · intro h
    exact test_post_skip rule post h
  · intro hall hc
    apply test_post_skip rule post
    unfold applies
    rw [hall, hc]
    rfl
  · intro h
    apply test_post_skip rule post
    rcases h with h | h
    · have hd : decide (post.owner_rep ≤ rule.max_rep) = false :=
        decide_eq_false (not_le.mpr h)
      simp [applies, hd]
    · have hd : decide (post.post_score ≤ rule.max_score) = false :=
        decide_eq_false (not_le.mpr h)
      simp [applies, hd]

/-- A concrete all-except rule whose site set contains the post's site, for
the C1 witness. -/
def c1Rule : Rule :=
  { reason := "bad keyword in \x7b\x7d"
    check := RuleCheck.method (fun _ _ _ => Except.ok (true, "hit"))
    all := true
    sites := ["siteA"]
    title := true
    body := true
    username := true
    stripcodeblocks := false
    body_summary := true
    answers := none
    questions := none
    max_rep := 4
    max_score := 1 }

/-- A post on `siteA`, for the C1 witness. -/
def c1Post : Post :=
  { title := "spam title"
    body := "spam body"
    user_name := "spammer"
    post_site := "siteA"
    owner_rep := 1
    post_score := 0
    is_answer := false
    body_is_summary := false }

/-- Witness for C1 at a concrete rule and post: the all-except rule listing
`siteA` is not applicable on `siteA` and removing it does not change the
verdict. -/
theorem C1_gate_applicability_witness :
    FindSpam.test_post ([] ++ c1Rule :: []) c1Post = FindSpam.test_post ([] ++ []) c1Post :=
  (C1_gate_applicability c1Rule c1Post).2.2.1 rfl (by decide) [] []

/-! ## Claim C2 — detector exceptions are NOT caught by `test_post` -/

/-- A rule whose (method) detector always raises. -/
def c2ThrowRule : Rule :=
  { reason := "throwing rule \x7b\x7d"
    check := RuleCheck.method (fun _ _ _ => Except.error ())
    all := true
    sites := []
    title := true
    body := true
    username := false
    stripcodeblocks := false
    body_summary := true
    answers := none
    questions := none
    max_rep := 100
    max_score := 100 }

/-- A rule whose (method) detector always matches. -/
def c2MatchRule : Rule :=
  { reason := "c2 reason \x7b\x7d"
    check := RuleCheck.method (fun _ _ _ => Except.ok (true, "m"))
    all := true
    sites := []
    title := true
    body := false
    username := false
    stripcodeblocks := false
    body_summary := true
    answers := none
    questions := none
    max_rep := 100
    max_score := 100 }

/-- A plain post, for the C2 theorems. -/
def c2Post : Post :=
  { title := "a title"
    body := "a body"
    user_name := "a user"
    post_site := "x.com"
    owner_rep := 1
    post_score := 0
    is_answer := false
    body_is_summary := false }

/-- Counterexample to C2: with a raising detector first in the catalog, the
whole evaluation of `FindSpam.test_post` raises — the remaining rule is
never evaluated and no verdict is returned — although the second rule alone
yields a verdict.  (The source's `test_post` has no `try`/`except` around
detector invocation; its only handlers are the `KeyError` defaults for the
`answers`/`questions` keys.) -/
theorem C2_counterexample :
    FindSpam.test_post [c2ThrowRule, c2MatchRule] c2Post = Except.error () ∧
      FindSpam.test_post [c2MatchRule] c2Post =
        Except.ok (["c2 reason title"], "Title - m") :=
  ⟨rfl, rfl⟩

/-- C2 amended: an exception inside a detector of an applicable rule is not
caught; it propagates out of `FindSpam.test_post`, aborting the whole
evaluation with no verdict. -/
theorem C2_exception_propagates (rules : List Rule) (post : Post)
    (h : ∃ r ∈ rules, evalRule r post = Except.error ()) :
    FindSpam.test_post rules post = Except.error () := by
  unfold FindSpam.test_post
  rw [runRules_error post rules h]

/-- Witness for the amended C2 at a concrete catalog and post. -/
theorem C2_exception_propagates_witness :
    FindSpam.test_post [c2ThrowRule] c2Post = Except.error () :=
  C2_exception_propagates [c2ThrowRule] c2Post
    ⟨c2ThrowRule, List.mem_singleton.mpr rfl, rfl⟩

/-! ## Claim C3 — `perform_similarity_checks` does not return the
all-links maximum -/

/-- The result of the similarity loop is either the value it started with
or the four-variant maximum of a single examined link. -/
theorem simLoop_single_link (name : String) :
    ∀ (links : List String) (cur r : Frac), simLoop name cur links = Except.ok r →
      r = cur ∨ ∃ l ∈ links, ∃ d, get_domain l false = Except.ok d ∧ r = fourMax d name := by
  intro links
  induction links with
  | nil =>
    intro cur r h
    simp only [simLoop] at h
    injection h with h
    exact Or.inl h.symm
  | cons l ls ih =>
    intro cur r h
    simp only [simLoop] at h
    cases hd : get_domain l false with
    | error e => simp [hd] at h
    | ok domain =>
      simp only [hd] at h
      by_cases hτ : Frac.le SIMILAR_THRESHOLD (fourMax domain name) = true
      · simp only [hτ, if_true] at h
        exact Or.inr ⟨l, List.mem_cons_self l ls, domain, hd, by
          injection h with h; exact h.symm⟩
      · simp only [hτ, if_false] at h
        rcases ih (fourMax domain name) r h with hcur | ⟨l2, hl2, d2, hd2, hr⟩
        · exact Or.inr ⟨l, List.mem_cons_self l ls, domain, hd, hcur⟩
        · exact Or.inr ⟨l2, List.mem_cons_of_mem l hl2, d2, hd2, hr⟩

/-- Counterexample to C3: on a post with two links the source's loop
overwrites `t1..t4` on every iteration, so when no link reaches the
threshold the value returned is the four-variant maximum of the *last*
examined link, not the maximum across all links (which the spec-side
definition computes): here `1/2` versus `8/9`. -/
theorem C3_counterexample :
    perform_similarity_checks "go http://fooz.com now http://zzz.com ok" "foozz" =
        Except.ok ⟨4, 8⟩ ∧
      perform_similarity_checks_spec "go http://fooz.com now http://zzz.com ok" "foozz" =
        Except.ok ⟨8, 9⟩ ∧
      Frac.eqv ⟨4, 8⟩ ⟨8, 9⟩ = false :=
  ⟨rfl, rfl, rfl⟩

/-- C3 amended: `perform_similarity_checks` returns the four-variant
similarity of a *single* link — the first one whose four variants reach the
threshold, otherwise the last one examined — or `0` when no link is
extracted; it is not in general the maximum across all links. -/
theorem C3_single_link (post name : String) (r : Frac)
    (h : perform_similarity_checks post name = Except.ok r) :
    r = ⟨0, 1⟩ ∨
      ∃ l ∈ post_links post, ∃ d, get_domain l false = Except.ok d ∧ r = fourMax d name :=
  simLoop_single_link name (post_links post) ⟨0, 1⟩ r h

/-- Witness for the amended C3 at a concrete post and name. -/
theorem C3_single_link_witness :
    (⟨4, 4⟩ : Frac) = ⟨0, 1⟩ ∨
      ∃ l ∈ post_links "see http://ab.com x", ∃ d,
        get_domain l false = Except.ok d ∧ (⟨4, 4⟩ : Frac) = fourMax d "ab" :=
  C3_single_link "see http://ab.com x" "ab" ⟨4, 4⟩ rfl

/-! ## Claim C4 — the `get_domain` fallback -/

/-- Counterexample to C4: for a URL whose top-level domain is unknown both
TLD-aware tiers fail and the structural tier consults `urlparse(s).path`,
which is *empty* for a scheme URL — `get_domain` returns the empty string;
and for a URL without a hostname the TLD parser raises `TldBadUrl`, which
the source does not catch (it only catches `TldDomainNotFound`), so
`get_domain` raises. -/
theorem C4_counterexample :
    get_domain "http://example.abcxyz" false = Except.ok "" ∧
      get_domain "http://" false = Except.error TldError.badUrl :=
  ⟨rfl, rfl⟩

/-- C4 amended: `get_domain` always terminates with a string — possibly the
empty string — except that a `TldBadUrl` raised by the TLD collaborator
(the only exception besides `TldDomainNotFound` it can raise in this model)
propagates uncaught. -/
theorem C4_fallback_total (s : String) (full : Bool) :
    get_domain s full = Except.error TldError.badUrl ∨
      ∃ r, get_domain s full = Except.ok r := by
  cases h1 : getTld s with
  | ok extract =>
    right
    exact ⟨(if full then extract.fld else extract.domain), by unfold get_domain; rw [h1]⟩
  | error e =>
    cases e with
    | badUrl =>
      left
      unfold get_domain
      rw [h1]
    | domainNotFound d =>
      have hstep : get_domain s full = getDomainTier2 s (replaceFirstS s d "http") full := by
        unfold get_domain
        rw [h1]
      rw [hstep]
      cases h2 : getTld (replaceFirstS s d "http") with
      | ok extract =>
        right
        exact ⟨(if full then extract.fld else extract.domain), by unfold getDomainTier2; rw [h2]⟩
      | error e2 =>
        cases e2 with
        | badUrl =>
          left
          unfold getDomainTier2
          rw [h2]
        | domainNotFound d2 =>
          right
          exact ⟨getDomainTier3 s full, by unfold getDomainTier2; rw [h2]⟩

/-! ## Claim C8 — the `co.uk` scenario -/

/-- C8: `get_domain` on `http://sub.example.co.uk/page` returns `example`
without the TLD and `example.co.uk` with `full=True`. -/
theorem C8_co_uk :
    get_domain "http://sub.example.co.uk/page" false = Except.ok "example" ∧
      get_domain "http://sub.example.co.uk/page" true = Except.ok "example.co.uk" :=
  ⟨rfl, rfl⟩

/-! ## Claim C9 — the repeated-word scenario -/

/-- C9: on the word `buy` repeated six times separated by single spaces,
`has_repeated_words` fires and reports the word `buy`. -/
theorem C9_buy_repeated (site username : String) :
    has_repeated_words "buy buy buy buy buy buy" site username =
      (true, "Repeated word: *buy*") := rfl

/-! ## Claim C5 — the verdict is deduplicated, sorted, and bucket-ordered -/

/-- C5: whenever `FindSpam.test_post` returns a verdict, the reason list is
sorted ascending in the code-point lexicographic order and duplicate-free;
the `why` string is the newline concatenation of the explanation buckets in
the fixed order title, body, username (each bucket filtered of empty
lines), independent of the rule iteration order that filled the buckets;
and evaluating the same post twice yields the identical verdict. -/
theorem C5_verdict_shape (rules : List Rule) (post : Post)
    (reasons : List String) (why : String)
    (h : FindSpam.test_post rules post = Except.ok (reasons, why)) :
    List.Sorted strLeProp reasons ∧ reasons.Nodup ∧
      (∃ t b u res, runRules rules post = Except.ok (t, b, u, res) ∧
        reasons = List.insertionSort strLeProp res.dedup ∧
        why = trimS (intercalateS "\n"
          ((t.filter (fun x => x ≠ "")) ++ (b.filter (fun x => x ≠ "")) ++
            (u.filter (fun x => x ≠ ""))))) ∧
      (∀ reasons2 why2, FindSpam.test_post rules post = Except.ok (reasons2, why2) →
        reasons2 = reasons ∧ why2 = why) := by
  unfold FindSpam.test_post at h
  cases hr : runRules rules post with
  | error e => rw [hr] at h; exact absurd h (by simp)
  | ok out =>
    rw [hr] at h
    obtain ⟨t, b, u, res⟩ := out
    injection h with h
    have hre : reasons = List.insertionSort strLeProp res.dedup := by
      have := congrArg Prod.fst h
      simpa [assembleVerdict] using this.symm
    have hwhy : why = trimS (intercalateS "\n"
        ((t.filter (fun x => x ≠ "")) ++ (b.filter (fun x => x ≠ "")) ++
          (u.filter (fun x => x ≠ "")))) := by
      have := congrArg Prod.snd h
      simpa [assembleVerdict] using this.symm
    refine ⟨?_, ?_, ⟨t, b, u, res, rfl, hre, hwhy⟩, ?_⟩
    · rw [hre]
      exact List.sorted_insertionSort strLeProp res.dedup
    · rw [hre]
      exact ((List.perm_insertionSort strLeProp res.dedup).nodup_iff).mpr
        (List.nodup_dedup res)
    · intro reasons2 why2 h2
      unfold FindSpam.test_post at h2
      rw [hr] at h2
      injection h2 with h2
      constructor
      · rw [hre]
        have := congrArg Prod.fst h2
        simpa [assembleVerdict] using this.symm
      · rw [hwhy]
        have := congrArg Prod.snd h2
        simpa [assembleVerdict] using this.symm

/-- A concrete regex-style check firing on any text containing `spam`, for
the C5 witness. -/
def c5Findall : String → List String :=
  fun s => if containsS s "spam" then ["spam"] else []

/-- The matching `finditer`, for the C5 witness. -/
def c5Finditer : String → List (Nat × Nat × String) :=
  fun s => if containsS s "spam" then [(0, 4, "spam")] else []

/-- A regex rule over all fields, for the C5 witness. -/
def c5Rule : Rule :=
  { reason := "bad \x7b\x7d"
    check := RuleCheck.regexCheck c5Findall c5Finditer
    all := true
    sites := []
    title := true
    body := true
    username := true
    stripcodeblocks := false
    body_summary := true
    answers := none
    questions := none
    max_rep := 100
    max_score := 100 }

/-- A post hitting the C5 witness rule in all three fields. -/
def c5Post : Post :=
  { title := "spam title"
    body := "spam body"
    user_name := "spamuser"
    post_site := "x.com"
    owner_rep := 1
    post_score := 0
    is_answer := false
    body_is_summary := false }

/-- Witness for C5 at a concrete catalog and post (the three reasons come
out deduplicated and sorted, and the explanation lines in title, body,
username order). -/
theorem C5_verdict_shape_witness :
    List.Sorted strLeProp ["bad body", "bad title", "bad username"] ∧
      ["bad body", "bad title", "bad username"].Nodup ∧
      (∃ t b u res, runRules [c5Rule] c5Post = Except.ok (t, b, u, res) ∧
        ["bad body", "bad title", "bad username"] =
          List.insertionSort strLeProp res.dedup ∧
        "Title - Position 1-5: spam\nBody - Position 1-5: spam\nUsername - Position 1-5: spam" =
          trimS (intercalateS "\n"
            ((t.filter (fun x => x ≠ "")) ++ (b.filter (fun x => x ≠ "")) ++
              (u.filter (fun x => x ≠ ""))))) ∧
      (∀ reasons2 why2, FindSpam.test_post [c5Rule] c5Post = Except.ok (reasons2, why2) →
        reasons2 = ["bad body", "bad title", "bad username"] ∧
          why2 = "Title - Position 1-5: spam\nBody - Position 1-5: spam\nUsername - Position 1-5: spam") :=
  C5_verdict_shape [c5Rule] c5Post
    ["bad body", "bad title", "bad username"]
    "Title - Position 1-5: spam\nBody - Position 1-5: spam\nUsername - Position 1-5: spam"
    rfl

/-! ## Claim C6 — gating before invocation, and what the field flags do NOT gate -/

/-- A per-field (non-whole-post) rule. -/
def Rule.perField (r : Rule) : Prop :=
  match r.check with
  | RuleCheck.wholePost _ => False
  | _ => True

/-- A method that raises exactly on the title text of `c6Post`, to witness
the title invocation. -/
def c6Method : String → String → String → Except Unit (Bool × String) :=
  fun s _ _ => if s = "T" then Except.error () else Except.ok (false, "")

/-- A rule whose `title` field flag is off, carrying `c6Method`. -/
def c6Rule : Rule :=
  { reason := "r \x7b\x7d"
    check := RuleCheck.method c6Method
    all := true
    sites := []
    title := false
    body := true
    username := true
    stripcodeblocks := false
    body_summary := true
    answers := none
    questions := none
    max_rep := 100
    max_score := 100 }

/-- The post whose title is the poison text. -/
def c6Post : Post :=
  { title := "T"
    body := "B"
    user_name := "U"
    post_site := "x.com"
    owner_rep := 1
    post_score := 0
    is_answer := false
    body_is_summary := false }

/-- Counterexample to C6: although the rule's `title` field flag is off,
its detector is still invoked on the title field once the gate passes — the
detector raising exactly on the title text makes the whole evaluation
raise; with a benign detector the same rule and post evaluate cleanly, so
the error can only come from the title invocation.  (The source calls
`rule['method'](post.title, ...)` and `rule['method'](post.user_name, ...)`
unconditionally for an applicable method rule; the field flags only gate
whether the result is recorded.) -/
theorem C6_counterexample :
    FindSpam.test_post [c6Rule] c6Post = Except.error () ∧
      FindSpam.test_post
        [{ c6Rule with check := RuleCheck.method (fun _ _ _ => Except.ok (false, "")) }]
        c6Post = Except.ok ([], "") :=
  ⟨rfl, rfl⟩

/-- C6 amended: gating is indeed evaluated strictly before detector
invocation — a rule whose gate fails contributes nothing, never runs its
detector (removing it changes nothing, even when its detector would raise),
and for an applicable per-field rule whose body condition
`(not body_is_summary or body_summary) and (not is_answer or answers) and
(is_answer or questions)` fails, the body text is never consulted (two
posts differing only in their body evaluate identically); but the `title`
and `username` field flags do not prevent invocation on those fields — they
only gate recording (see the counterexample). -/
theorem C6_gate_before_invocation :
    (∀ (rule : Rule) (post : Post), applies rule post = false →
      ∀ l₁ l₂ : List Rule,
        FindSpam.test_post (l₁ ++ rule :: l₂) post = FindSpam.test_post (l₁ ++ l₂) post) ∧
    (∀ (rule : Rule) (titleT bodyA bodyB userT siteT : String)
        (rep score : Int) (ia bs : Bool),
      Rule.perField rule →
      bodyCond rule
        { title := titleT, body := bodyA, user_name := userT, post_site := siteT,
          owner_rep := rep, post_score := score, is_answer := ia,
          body_is_summary := bs } = false →
      evalRule rule
        { title := titleT, body := bodyA, user_name := userT, post_site := siteT,
          owner_rep := rep, post_score := score, is_answer := ia,
          body_is_summary := bs } =
      evalRule rule
        { title := titleT, body := bodyB, user_name := userT, post_site := siteT,
          owner_rep := rep, post_score := score, is_answer := ia,
          body_is_summary := bs }) := by
  constructor
  · intro rule post h l₁ l₂
    exact test_post_skip rule post h l₁ l₂
  · intro rule titleT bodyA bodyB userT siteT rep score ia bs hpf hbc
    have hbc2 : bodyCond rule
        { title := titleT, body := bodyB, user_name := userT, post_site := siteT,
          owner_rep := rep, post_score := score, is_answer := ia,
          body_is_summary := bs } = false := hbc
    unfold evalRule
    cases happ : applies rule
        { title := titleT, body := bodyA, user_name := userT, post_site := siteT,
          owner_rep := rep, post_score := score, is_answer := ia,
          body_is_summary := bs } with
    | false =>
      have happ2 : applies rule
          { title := titleT, body := bodyB, user_name := userT, post_site := siteT,
            owner_rep := rep, post_score := score, is_answer := ia,
            body_is_summary := bs } = false := happ
      rw [happ2]
      rfl
    | true =>
      have happ2 : applies rule
          { title := titleT, body := bodyB, user_name := userT, post_site := siteT,
            owner_rep := rep, post_score := score, is_answer := ia,
            body_is_summary := bs } = true := happ
      rw [happ2]
      simp only [if_true]
      cases hc : rule.check with
      | regexCheck findall finditer =>
        simp only [hbc, hbc2, if_false]
        rfl
      | method f =>
        simp only [hbc, hbc2, if_false]
        cases f titleT siteT userT with
        | error e => rfl
        | ok p =>
          obtain ⟨mt, why_title⟩ := p
          cases f userT siteT userT with
          | error e => rfl
          | ok q =>
            obtain ⟨mu, why_username⟩ := q
            simp only [hbc, hbc2, if_false]
            rfl
      | wholePost f =>
        simp [Rule.perField, hc] at hpf

/-- A rule whose gate fails on `c6Post` (whitelist mode with an empty site
list) and whose detector always raises, for the C6 witness. -/
def c6GateRule : Rule :=
  { reason := "g \x7b\x7d"
    check := RuleCheck.method (fun _ _ _ => Except.error ())
    all := false
    sites := []
    title := true
    body := true
    username := true
    stripcodeblocks := false
    body_summary := true
    answers := none
    questions := none
    max_rep := 100
    max_score := 100 }

/-- A method rule that does not allow summarized bodies, for the C6
witness. -/
def c6SumRule : Rule :=
  { reason := "s \x7b\x7d"
    check := RuleCheck.method (fun _ _ _ => Except.ok (true, "w"))
    all := true
    sites := []
    title := true
    body := true
    username := true
    stripcodeblocks := false
    body_summary := false
    answers := none
    questions := none
    max_rep := 100
    max_score := 100 }

/-- Witness for the amended C6: removing the gate-failing (raising!) rule
changes nothing, and on a summarized post the body-disallowing rule never
looks at the body. -/
theorem C6_gate_before_invocation_witness :
    (FindSpam.test_post ([] ++ c6GateRule :: []) c6Post =
      FindSpam.test_post ([] ++ []) c6Post) ∧
      (evalRule c6SumRule
          { title := "T", body := "bodyA", user_name := "U", post_site := "x.com",
            owner_rep := 1, post_score := 0, is_answer := false,
            body_is_summary := true } =
        evalRule c6SumRule
          { title := "T", body := "bodyB", user_name := "U", post_site := "x.com",
            owner_rep := 1, post_score := 0, is_answer := false,
            body_is_summary := true }) :=
  ⟨C6_gate_before_invocation.1 c6GateRule c6Post (by decide) [] [],
   C6_gate_before_invocation.2 c6SumRule "T" "bodyA" "bodyB" "U" "x.com" 1 0 false true
     (by trivial) (by decide)⟩

/-! ## Claim C10 — whole-post results and the field flags -/

/-- A whole-post rule flagging both title and body in its 4-way result,
with the `body` field flag set, for the C10 counterexample. -/
def c10Rule : Rule :=
  { reason := "r \x7b\x7d"
    check := RuleCheck.wholePost (fun _ => Except.ok (true, false, true, "w"))
    all := true
    sites := []
    title := false
    body := true
    username := false
    stripcodeblocks := false
    body_summary := true
    answers := none
    questions := none
    max_rep := 100
    max_score := 100 }

/-- A plain post for the C10 theorems. -/
def c10Post : Post :=
  { title := "t"
    body := "b"
    user_name := "u"
    post_site := "x.com"
    owner_rep := 1
    post_score := 0
    is_answer := false
    body_is_summary := false }

/-- Counterexample to C10: a whole-post rule whose detector flags both
title and body records TWO reasons in one evaluation when its `body` field
flag is set — the `elif` chain records the title, and the later per-field
block records the body again — so the lower-priority flag is not ignored. -/
theorem C10_counterexample :
    FindSpam.test_post [c10Rule] c10Post = Except.ok (["r body", "r title"], "Title - w") ∧
      ("r body" : String) ≠ "r title" :=
  ⟨rfl, by decide⟩

/-- C10 amended: for a whole-post rule whose three field flags are all off
— as for the one whole-post rule the catalog ships — at most one field hit
is recorded per evaluation, the highest-priority flagged field in the order
title before username before body, with at most one explanation line; with
field flags set, the later per-field block can record further fields (see
the counterexample). -/
theorem C10_single_field_hit (rule : Rule) (post : Post)
    (f : Post → Except Unit (Bool × Bool × Bool × String))
    (t u b : Bool) (w : String)
    (hc : rule.check = RuleCheck.wholePost f)
    (ht : rule.title = false) (hu : rule.username = false) (hb : rule.body = false)
    (happ : applies rule post = true)
    (hf : f post = Except.ok (t, u, b, w)) :
    ∃ wt wb wu res, evalRule rule post = Except.ok (wt, wb, wu, res) ∧
      res.length ≤ 1 ∧
      ((wt ++ wb ++ wu).filter (fun x => x ≠ "")).length ≤ 1 ∧
      (t = true → res = [replaceAllS rule.reason "\x7b\x7d" "title"]) ∧
      (t = false → u = true → res = [replaceAllS rule.reason "\x7b\x7d" "username"]) ∧
      (t = false → u = false → b = true → res = [replaceAllS rule.reason "\x7b\x7d" "body"]) ∧
      (t = false → u = false → b = false → res = []) := by
  have he : evalRule rule post =
      Except.ok (finalWhole rule post (preprocessBody rule post) t u b w) := by
    unfold evalRule
    rw [happ, hc]
    simp only [if_true, hf]
  rw [he]
  unfold finalWhole
  rw [ht, hu, hb]
  cases t with
  | true =>
    refine ⟨_, _, _, _, rfl, ?_, ?_, ?_, ?_, ?_, ?_⟩ <;>
      first
        | exact (List.length_filter_le _ _).trans (by simp)
        | simp
  | false =>
    cases u with
    | true =>
      refine ⟨_, _, _, _, rfl, ?_, ?_, ?_, ?_, ?_, ?_⟩ <;>
        first
          | exact (List.length_filter_le _ _).trans (by simp)
          | simp
    | false =>
      cases b with
      | true =>
        refine ⟨_, _, _, _, rfl, ?_, ?_, ?_, ?_, ?_, ?_⟩ <;>
          first
            | exact (List.length_filter_le _ _).trans (by simp)
            | simp
      | false =>
        refine ⟨_, _, _, _, rfl, ?_, ?_, ?_, ?_, ?_, ?_⟩ <;>
          first
            | exact (List.length_filter_le _ _).trans (by simp)
            | simp

/-- The all-flags-off variant of the C10 rule, as the shipped whole-post
rule has. -/
def c10OffRule : Rule :=
  { reason := "r \x7b\x7d"
    check := RuleCheck.wholePost (fun _ => Except.ok (true, false, true, "w"))
    all := true
    sites := []
    title := false
    body := false
    username := false
    stripcodeblocks := false
    body_summary := true
    answers := none
    questions := none
    max_rep := 100
    max_score := 100 }

/-- Witness for the amended C10 at a concrete rule and post. -/
theorem C10_single_field_hit_witness :
    ∃ wt wb wu res, evalRule c10OffRule c10Post = Except.ok (wt, wb, wu, res) ∧
      res.length ≤ 1 ∧
      ((wt ++ wb ++ wu).filter (fun x => x ≠ "")).length ≤ 1 ∧
      (true = true → res = [replaceAllS c10OffRule.reason "\x7b\x7d" "title"]) ∧
      (true = false → false = true → res = [replaceAllS c10OffRule.reason "\x7b\x7d" "username"]) ∧
      (true = false → false = false → true = true → res = [replaceAllS c10OffRule.reason "\x7b\x7d" "body"]) ∧
      (true = false → false = false → true = false → res = []) :=
  C10_single_field_hit c10OffRule c10Post _ true false true "w" rfl rfl rfl rfl (by decide) rfl

/-! ## Claim C7 — every procedural detector is a no-match on empty text -/
/-- The facts about the abstracted compiled patterns the empty-text claim
uses: none of the patterns matches the empty string, so every search on
`""` is `None` and every findall on `""` is `[]` (each holds of the
concrete patterns in the source, which all require at least one
character). -/
structure RegexOps.EmptyOk (ops : RegexOps) : Prop where
  link_at_end_search_empty : ops.link_at_end_search "" = none
  nofollow_links_empty : ops.nofollow_links "" = []
  phone_findall_empty : ops.phone_findall "" = []
  cs_phrase_empty : ops.cs_phrase "" = none
  health_organ_empty : ops.health_organ "" = none
  health_condition_empty : ops.health_condition "" = none
  health_goal_empty : ops.health_goal "" = none
  health_remedy_empty : ops.health_remedy "" = none
  health_boast_empty : ops.health_boast "" = none
  health_other_empty : ops.health_other "" = none
  product_three_empty : ∀ kw, ops.product_three kw "" = []
  product_two_empty : ∀ kw, ops.product_two kw "" = []
  ke_keyword_empty : ops.ke_keyword "" = none
  ke_obfuscated_empty : ops.ke_obfuscated "" = none
  pe_search_empty : ops.pe_search "" = none
  kl_link_empty : ops.kl_link "" = none
  bpu_findall_empty : ops.bpu_findall "" = []

/-- C7: every procedural detector of the module, called with the empty
string as the field text and any site and username, returns the
definitive no-match `(False, "")` and does not raise — in particular the
detectors that divide by the text length (`is_offensive_post`,
`mostly_dots`, ` character_utilization_ratio`) guard the empty-text
case. -/
theorem C7_empty_text_no_match (ops : RegexOps) (dns : String → Except Unit (List String))
    (site username : String) (h : RegexOps.EmptyOk ops) :
    has_repeated_words "" site username = (false, "") ∧
    has_few_characters "" site username = (false, "") ∧
    has_repeating_characters "" site username = (false, "") ∧
    link_at_end ops "" site username = (false, "") ∧
    non_english_link ops "" site username = (false, "") ∧
    mostly_non_latin ops "" site username = (false, "") ∧
    has_phone_number ops "" site username = (false, "") ∧
    has_customer_service ops "" site username = (false, "") ∧
    has_health ops "" site username = (false, "") ∧
    pattern_product_name ops "" site username = (false, "") ∧
    what_is_this_pharma_title "" site username = (false, "") ∧
    keyword_email ops "" site username = (false, "") ∧
    pattern_email ops "" site username = (false, "") ∧
    keyword_link ops "" site username = (false, "") ∧
    bad_link_text ops "" site username = (false, "") ∧
    bad_pattern_in_url ops "" site username = (false, "") ∧
    bad_ns_for_url_domain dns "" site username = Except.ok (false, "") ∧
    is_offensive_post ops "" site username = (false, "") ∧
    has_eltima "" site username = (false, "") ∧
    username_similar_website "" site username = Except.ok (false, "") ∧
    character_utilization_ratio "" site username = (false, "") ∧
    mostly_dots "" site username = (false, "") ∧
    mevaqesh_troll "" site username = (false, "") := by
  refine ⟨rfl, rfl, rfl, ?_, ?_, rfl, ?_, ?_, ?_, ?_, rfl, ?_, ?_, ?_, ?_, ?_, rfl, rfl,
    rfl, rfl, rfl, rfl, rfl⟩
  · have h1 : link_at_end ops "" site username =
        (match ops.link_at_end_search "" with
          | some m => if ops.link_at_end_bad m then (false, "")
            else (true, "Link at end: " ++ m)
          | none => (false, "")) := rfl
    rw [h1, h.link_at_end_search_empty]
  · have h1 : non_english_link ops "" site username =
        nelLoop (ops.nofollow_links "") := rfl
    rw [h1, h.nofollow_links_empty]
    rfl
  · have h1 : has_phone_number ops "" site username =
        (if ops.phone_guard "" then (false, "")
         else phnLoop ops (ops.phone_findall "")) := rfl
    rw [h1, h.phone_findall_empty]
    cases hg : ops.phone_guard "" <;> simp [hg, phnLoop]
  · have h1 : has_customer_service ops "" site username =
        (if (ops.cs_phrase "").isSome &&
            ["askubuntu.com", "webapps.stackexchange.com",
              "webmasters.stackexchange.com"].contains site then
          (true, "Key phrase: *" ++ (ops.cs_phrase "").getD "" ++ "*")
        else if (ops.cs_business "").isSome && false then
          (if (ops.cs_keywords "").dedup.length ≥ 2 then
            (true, "Scam aimed at *" ++ (ops.cs_business "").getD "" ++
              "* customers. Keywords: *" ++ intercalateS ", " (ops.cs_keywords "") ++ "*")
          else (false, ""))
        else (false, "")) := rfl
    rw [h1, h.cs_phrase_empty]
    simp
  · have h1 : has_health ops "" site username =
        (if 4 * (if (ops.health_organ "").isSome then 1 else 0) +
            2 * (if (ops.health_condition "").isSome then 1 else 0) +
            2 * (if (ops.health_goal "").isSome then 1 else 0) +
            2 * (if (ops.health_remedy "").isSome then 1 else 0) +
            (if (ops.health_boast "").isSome then 1 else 0) +
            (if (ops.health_other "").isSome then 1 else 0) + 0 ≥ 8 then
          (true, "Health-themed spam (score " ++
            toString (4 * (if (ops.health_organ "").isSome then 1 else 0) +
              2 * (if (ops.health_condition "").isSome then 1 else 0) +
              2 * (if (ops.health_goal "").isSome then 1 else 0) +
              2 * (if (ops.health_remedy "").isSome then 1 else 0) +
              (if (ops.health_boast "").isSome then 1 else 0) +
              (if (ops.health_other "").isSome then 1 else 0) + 0) ++
            "). Keywords: *" ++
            lowerS (intercalateS ", "
              ([ops.health_organ "", ops.health_condition "", ops.health_goal "",
                ops.health_remedy "", ops.health_boast "",
                ops.health_other ""].filterMap id)) ++ "*")
        else (false, "")) := rfl
    rw [h1, h.health_organ_empty, h.health_condition_empty, h.health_goal_empty,
      h.health_remedy_empty, h.health_boast_empty, h.health_other_empty]
    rfl
  · have h1 : pattern_product_name ops "" site username =
        (let keywords := productKeywordsBase ++
          (if site ≠ "math.stackexchange.com" && site ≠ "mathoverflow.net" then
            productKeywordsExtra else [])
         if (ops.product_three keywords "").length ≥ 1 &&
             all_matches_unique (ops.product_three keywords "") then
           (true, "Pattern-matching product name *" ++
             ((ops.product_three keywords "").headD default).1 ++ "*")
         else if (ops.product_two keywords "").length ≥ 2 &&
             all_matches_unique (ops.product_two keywords "") then
           (true, "Pattern-matching product name *" ++
             ((ops.product_two keywords "").headD default).1 ++ "*")
         else (false, "")) := rfl
    rw [h1]
    simp only [h.product_three_empty, h.product_two_empty]
    rfl
  · have h1 : keyword_email ops "" site username =
        (if (ops.ke_keyword "").isSome && (ops.ke_email "").isSome then
          (true, "Keyword *" ++ (ops.ke_keyword "").getD "" ++ "* with email " ++
            (ops.ke_email "").getD "")
        else if (ops.ke_obfuscated "").isSome && !(ops.ke_email "").isSome then
          (true, "Obfuscated email " ++ (ops.ke_obfuscated "").getD "")
        else (false, "")) := rfl
    rw [h1, h.ke_keyword_empty, h.ke_obfuscated_empty]
    rfl
  · have h1 : pattern_email ops "" site username =
        (match ops.pe_search "" with
          | some p => (true, "Pattern-matching email " ++ p)
          | none => (false, "")) := rfl
    rw [h1, h.pe_search_empty]
  · have h1 : keyword_link ops "" site username =
        (match ops.kl_link "" with
          | none => (false, "")
          | some lk =>
            if ops.kl_link_bad lk then (false, "")
            else
              if (ops.kl_keyword "").isSome then
                (true, "Keyword *" ++ (ops.kl_keyword "").getD "" ++ "* with link " ++ lk)
              else if (ops.kl_thanks "").isSome && (ops.kl_praise "").isSome then
                (true, "Keywords *" ++ (ops.kl_thanks "").getD "" ++ "*, *" ++
                  (ops.kl_praise "").getD "" ++ "* with link " ++ lk)
              else (false, "")) := rfl
    rw [h1, h.kl_link_empty]
  · have h1 : bad_link_text ops "" site username =
        bltLoop ops (ops.nofollow_links "") := rfl
    rw [h1, h.nofollow_links_empty]
    rfl
  · have h1 : bad_pattern_in_url ops "" site username =
        (if !((ops.bpu_findall "").filter (fun x => !ops.bpu_is_se x.1)).isEmpty then
          (true, "Bad fragment in link " ++ intercalateS ", "
            (((ops.bpu_findall "").filter (fun x => !ops.bpu_is_se x.1)).map
              (fun x => x.1 ++ x.2)))
        else (false, "")) := rfl
    rw [h1, h.bpu_findall_empty]
    rfl

/-- A trivial instantiation of the pattern bundle (nothing ever matches),
showing the empty-text facts are satisfiable and serving as the witness
instantiation. -/
def trivialRegexOps : RegexOps :=
  { link_at_end_search := fun _ => none
    link_at_end_bad := fun _ => false
    nofollow_links := fun _ => []
    phone_guard := fun _ => false
    phone_findall := fun _ => []
    phone_check := fun _ _ => false
    cs_phrase := fun _ => none
    cs_business := fun _ => none
    cs_keywords := fun _ => []
    health_organ := fun _ => none
    health_condition := fun _ => none
    health_goal := fun _ => none
    health_remedy := fun _ => none
    health_boast := fun _ => none
    health_other := fun _ => none
    product_three := fun _ _ => []
    product_two := fun _ _ => []
    ke_keyword := fun _ => none
    ke_email := fun _ => none
    ke_obfuscated := fun _ => none
    pe_search := fun _ => none
    kl_link := fun _ => none
    kl_link_bad := fun _ => false
    kl_praise := fun _ => none
    kl_thanks := fun _ => none
    kl_keyword := fun _ => none
    blt_keywords := fun _ => none
    blt_business := fun _ => none
    blt_support := fun _ => none
    bpu_findall := fun _ => []
    bpu_is_se := fun _ => false
    offensive_finditer := fun _ => []
    latin_or_cyrillic := fun _ => true }

/-- The trivial bundle satisfies the empty-text facts. -/
theorem trivialRegexOps_emptyOk : RegexOps.EmptyOk trivialRegexOps :=
  ⟨rfl, rfl, rfl, rfl, rfl, rfl, rfl, rfl, rfl, rfl,
   fun _ => rfl, fun _ => rfl, rfl, rfl, rfl, rfl, rfl⟩

/-- Witness for C7 at the trivial pattern bundle, a no-op DNS collaborator
and concrete site and username. -/
theorem C7_empty_text_no_match_witness :
    RegexOps.EmptyOk trivialRegexOps ∧
      (has_repeated_words "" "example.com" "user" = (false, "") ∧
       has_few_characters "" "example.com" "user" = (false, "") ∧
       has_repeating_characters "" "example.com" "user" = (false, "") ∧
       link_at_end trivialRegexOps "" "example.com" "user" = (false, "") ∧
       non_english_link trivialRegexOps "" "example.com" "user" = (false, "") ∧
       mostly_non_latin trivialRegexOps "" "example.com" "user" = (false, "") ∧
       has_phone_number trivialRegexOps "" "example.com" "user" = (false, "") ∧
       has_customer_service trivialRegexOps "" "example.com" "user" = (false, "") ∧
       has_health trivialRegexOps "" "example.com" "user" = (false, "") ∧
       pattern_product_name trivialRegexOps "" "example.com" "user" = (false, "") ∧
       what_is_this_pharma_title "" "example.com" "user" = (false, "") ∧
       keyword_email trivialRegexOps "" "example.com" "user" = (false, "") ∧
       pattern_email trivialRegexOps "" "example.com" "user" = (false, "") ∧
       keyword_link trivialRegexOps "" "example.com" "user" = (false, "") ∧
       bad_link_text trivialRegexOps "" "example.com" "user" = (false, "") ∧
       bad_pattern_in_url trivialRegexOps "" "example.com" "user" = (false, "") ∧
       bad_ns_for_url_domain (fun _ => Except.ok []) "" "example.com" "user" =
         Except.ok (false, "") ∧
       is_offensive_post trivialRegexOps "" "example.com" "user" = (false, "") ∧
       has_eltima "" "example.com" "user" = (false, "") ∧
       username_similar_website "" "example.com" "user" = Except.ok (false, "") ∧
       character_utilization_ratio "" "example.com" "user" = (false, "") ∧
       mostly_dots "" "example.com" "user" = (false, "") ∧
       mevaqesh_troll "" "example.com" "user" = (false, "")) :=
  ⟨trivialRegexOps_emptyOk,
   C7_empty_text_no_match trivialRegexOps (fun _ => Except.ok []) "example.com" "user"
     trivialRegexOps_emptyOk⟩
